import Mathlib

/-!
Shallow embedding of the triage repository's fingerprinting, grid expansion,
storage, training-orchestration and ranking code, with theorems checking the
specification's claims against it.
-/

/-- JSON-representable configuration values: the nested structures of mappings,
sequences and scalars consumed by the fingerprinting code
(`json.dumps` inputs in `SimpleModelTrainer._model_hash` and the
configuration dictionaries). Mappings are modelled as ordered association
lists, mirroring Python dict insertion order. -/
inductive J where
  | null : J
  | bool : Bool → J
  | num : ℚ → J
  | str : String → J
  | arr : List J → J
  | obj : List (String × J) → J
deriving Repr

/-- Key-ordering comparison used to sort a mapping's entries, as
`json.dumps(..., sort_keys=True)` sorts keys. -/
def keyle (p q : String × J) : Prop := p.1 ≤ q.1

instance : DecidableRel keyle := fun a b => inferInstanceAs (Decidable (a.1 ≤ b.1))

instance : IsTotal (String × J) keyle := ⟨fun a b => le_total a.1 b.1⟩

instance : IsTrans (String × J) keyle := ⟨fun _ _ _ h1 h2 => le_trans h1 h2⟩

/-- Strict key order, used to show the sorted entry list is unique when keys
are duplicate-free. -/
def keylt (p q : String × J) : Prop := p.1 < q.1

instance : IsAntisymm (String × J) keylt := ⟨fun _ _ h1 h2 => absurd h2 (lt_asymm h1)⟩

/-- Recursively sort every mapping's entries by key, the normalization that
`json.dumps(..., sort_keys=True)` applies at every nesting depth. -/
def canon : J → J
  | .null => .null
  | .bool b => .bool b
  | .num q => .num q
  | .str s => .str s
  | .arr l => .arr (l.attach.map (fun x => canon x.1))
  | .obj l => .obj (List.insertionSort keyle (l.attach.map (fun p => (p.1.1, canon p.1.2))))
termination_by j => sizeOf j
decreasing_by
  · have := List.sizeOf_lt_of_mem x.2
    simp only [J.arr.sizeOf_spec]
    omega
  · have h1 := List.sizeOf_lt_of_mem p.2
    have h2 : sizeOf p.1.2 < sizeOf p.1 := by
      obtain ⟨a, b⟩ := p.1
      simp only [Prod.mk.sizeOf_spec]
      omega
    simp only [J.obj.sizeOf_spec]
    omega

/-- Every mapping in the value has duplicate-free keys, as Python
dictionaries do. -/
inductive NodupKeysJ : J → Prop where
  | null : NodupKeysJ .null
  | bool (b : Bool) : NodupKeysJ (.bool b)
  | num (q : ℚ) : NodupKeysJ (.num q)
  | str (s : String) : NodupKeysJ (.str s)
  | arr {l : List J} : (∀ x ∈ l, NodupKeysJ x) → NodupKeysJ (.arr l)
  | obj {l : List (String × J)} : (l.map Prod.fst).Nodup →
      (∀ p ∈ l, NodupKeysJ p.2) → NodupKeysJ (.obj l)

/-- Serialization of a configuration value to a JSON text, mirroring
`json.dumps` output shape. Applied after `canon` it models
`json.dumps(x, sort_keys=True)`. -/
def ser : J → String
  | .null => "null"
  | .bool b => if b then "true" else "false"
  | .num q => toString q
  | .str s => "\"" ++ s ++ "\""
  | .arr l => "[" ++ String.intercalate ", " (l.attach.map (fun x => ser x.1)) ++ "]"
  | .obj l => "\x7b" ++ String.intercalate ", "
      (l.attach.map (fun p => "\"" ++ p.1.1 ++ "\": " ++ ser p.1.2)) ++ "\x7d"
termination_by j => sizeOf j
decreasing_by
  · have := List.sizeOf_lt_of_mem x.2
    simp only [J.arr.sizeOf_spec]
    omega
  · have h1 := List.sizeOf_lt_of_mem p.2
    have h2 : sizeOf p.1.2 < sizeOf p.1 := by
      obtain ⟨a, b⟩ := p.1
      simp only [Prod.mk.sizeOf_spec]
      omega
    simp only [J.obj.sizeOf_spec]
    omega

mutual
/-- A reordering of a configuration's mapping keys at any nesting depth:
scalars are unchanged, sequences are reordered pointwise (order preserved),
and a mapping's entries may be permuted after their values are reordered. -/
inductive KeyReorder : J → J → Prop where
  | null : KeyReorder .null .null
  | bool (b : Bool) : KeyReorder (.bool b) (.bool b)
  | num (q : ℚ) : KeyReorder (.num q) (.num q)
  | str (s : String) : KeyReorder (.str s) (.str s)
  | arr {xs ys : List J} : KeyReorderList xs ys → KeyReorder (.arr xs) (.arr ys)
  | obj {l m l' : List (String × J)} : KeyReorderEntries l m → m.Perm l' →
      KeyReorder (.obj l) (.obj l')

inductive KeyReorderList : List J → List J → Prop where
  | nil : KeyReorderList [] []
  | cons {x y : J} {xs ys : List J} : KeyReorder x y → KeyReorderList xs ys →
      KeyReorderList (x :: xs) (y :: ys)

inductive KeyReorderEntries : List (String × J) → List (String × J) → Prop where
  | nil : KeyReorderEntries [] []
  | cons {k : String} {v v' : J} {l l' : List (String × J)} : KeyReorder v v' →
      KeyReorderEntries l l' → KeyReorderEntries ((k, v) :: l) ((k, v') :: l')
end

/-- Modelled from the spec: the Canonical Fingerprinter
(`filename_friendly_hash` in triage/utils.py, which is absent from src/):
recursively sort every mapping's keys, serialize the normalized structure to a
canonical byte string and hash it with a digest, returning a string identity.
The digest is passed in as a function of the canonical serialization. -/
def filename_friendly_hash (digest : String → String) (c : J) : String :=
  digest (ser (canon c))

/-- Python's `hex` on an arbitrary-size integer. -/
def hexString (n : Int) : String :=
  if n < 0 then "-0x" ++ (Nat.toDigits 16 n.natAbs).asString
  else "0x" ++ (Nat.toDigits 16 n.natAbs).asString

/-- `SimpleModelTrainer._model_hash`: identity of a grid point, the hex of the
process hash of `json.dumps` of the `unique` dictionary with sorted keys.
`pyhash` stands for Python's builtin `hash` on strings (process-seeded). -/
def model_hash (pyhash : String → Int) (project_path : String)
    (training_metadata : J) (class_path : String)
    (parameters : List (String × J)) : String :=
  hexString (pyhash (ser (canon (J.obj
    [("className", .str class_path),
     ("parameters", .obj parameters),
     ("project_path", .str project_path),
     ("training_metadata", training_metadata)]))))

/-- The nested configuration of `test_filename_friendly_hash_stability`. -/
def c1Example : J :=
  .obj [("one", .str "two"),
        ("three", .obj [("four", .str "five"), ("six", .str "seven")])]

/-- The same configuration with the inner mapping's keys reordered. -/
def c1Example' : J :=
  .obj [("three", .obj [("six", .str "seven"), ("four", .str "five")]),
        ("one", .str "two")]

/-- Key order on grid items, as `sorted(p.items())` orders a parameter grid's
items by hyperparameter name. -/
def kvle (p q : String × List J) : Prop := p.1 ≤ q.1

instance : DecidableRel kvle := fun a b => inferInstanceAs (Decidable (a.1 ≤ b.1))

instance : IsTotal (String × List J) kvle := ⟨fun a b => le_total a.1 b.1⟩

instance : IsTrans (String × List J) kvle := ⟨fun _ _ _ h1 h2 => le_trans h1 h2⟩

/-- `itertools.product` over a list of candidate-value lists: every way of
choosing one value per list, the last list varying fastest. -/
def cartProd : List (List J) → List (List J)
  | [] => [[]]
  | vs :: rest => (vs.map (fun v => (cartProd rest).map (fun tail => v :: tail))).flatten

/-- `sklearn.grid_search.ParameterGrid` over one grid dictionary: sort the
items by key; with no items yield a single empty parameter dict, else yield
one parameter dict per point of the cartesian product of the value lists. -/
def parameterGrid (parameter_config : List (String × List J)) :
    List (List (String × J)) :=
  let items := List.insertionSort kvle parameter_config
  if items.isEmpty then [[]]
  else (cartProd (items.map Prod.snd)).map
    (fun combo => (items.map Prod.fst).zip combo)

/-- `SimpleModelTrainer._generate_model_configs`: flatten a model/parameter
grid configuration into individually trainable classpath/parameter pairs. -/
def generate_model_configs
    (model_config : List (String × List (String × List J))) :
    List (String × List (String × J)) :=
  (model_config.map (fun cp => (parameterGrid cp.2).map (fun ps => (cp.1, ps)))).flatten

/-- A small concrete grid: one classifier with a two-value hyperparameter
list and one identifier with an empty inner mapping. -/
def c7Example : List (String × List (String × List J)) :=
  [("sklearn.tree.DecisionTreeClassifier", [("max_depth", [.num 1, .num 5])]),
   ("sklearn.dummy.DummyClassifier", [])]

/-- A concrete hyperparameter assignment for one grid point. -/
def Params := List (String × J)

/-- Errors a training run can raise, mirroring the Python exceptions:
`KeyError` from popping a missing label column, the external fit call's
exception, `TypeError` from `enumerate(None)`, `IndexError` from indexing
`feature_names`, an I/O failure inside `write`, and the unique-constraint
violation on `models.model_hash` at commit. -/
inductive TrainErr where
  | keyErr : TrainErr
  | fitExc : String → TrainErr
  | typeErr : TrainErr
  | indexErr : TrainErr
  | writeErr : TrainErr
  | integrityErr : TrainErr
deriving Repr, DecidableEq

/-- A trained model object as the importance-probing code sees it: its
optional `feature_importances_` and `coef_` attributes. -/
structure TrainedModel where
  featureImportances : Option (List ℚ)
  coef : Option (List (List ℚ))
deriving Repr, DecidableEq

/-- A single value yielded by iterating a feature-importance result: a
scalar from a 1-D array, or a whole row from a 2-D `coef_`. -/
inductive ImpVal where
  | scalar : ℚ → ImpVal
  | row : List ℚ → ImpVal
deriving Repr, DecidableEq

/-- The value returned by `get_feature_importances` when it is not `None`. -/
inductive FeatImp where
  | oneD : List ℚ → FeatImp
  | twoD : List (List ℚ) → FeatImp
deriving Repr, DecidableEq

/-- Iterating a feature-importance value, as `enumerate` does. -/
def FeatImp.toVals : FeatImp → List ImpVal
  | .oneD l => l.map .scalar
  | .twoD l => l.map .row

/-- `get_feature_importances`: return `model.feature_importances_` if that
attribute exists; otherwise probe `model.coef_`, returning `coef_[0]` when
`len(coef_) <= 1` (an empty `coef_` raises IndexError, caught by the bare
except) and `coef_` itself otherwise; return `None` when both probes fail. -/
def get_feature_importances (model : TrainedModel) : Option FeatImp :=
  match model.featureImportances with
  | some fi => some (.oneD fi)
  | none =>
    match model.coef with
    | some c =>
      if c.length ≤ 1 then
        match c with
        | [] => none
        | h :: _ => some (.oneD h)
      else some (.twoD c)
    | none => none

/-- A row of the `results.models` table. -/
structure ModelRow where
  model_id : Nat
  model_hash : String
  model_type : String
  model_parameters : Params

/-- A row of the `results.feature_importances` table. -/
structure FIRow where
  model_id : Nat
  feature : String
  feature_importance : ImpVal

/-- The record store: the two tables the trainer writes. -/
structure Db where
  models : List ModelRow
  feature_importances : List FIRow

/-- Local filesystem contents: written files, path to pickled object. -/
abbrev FSState := List (String × TrainedModel)

/-- Remote object-store contents: written keys, key to uploaded object. -/
abbrev S3State := List (String × TrainedModel)

/-- `os.path.isfile`. -/
def isfile (fs : FSState) (path : String) : Bool :=
  fs.any (fun kv => kv.1 == path)

/-- Modelled from the spec: `key_exists` (triage/utils.py, absent from
src/): whether an object has been durably written at the key. -/
def key_exists (s3 : S3State) (key : String) : Bool :=
  s3.any (fun kv => kv.1 == key)

/-- Python truthiness of a `bool`-or-`None` value, as tested by
`if replace or not model_store.exists():`. -/
def truthy : Option Bool → Bool
  | none => false
  | some b => b

/-- One interchangeable persistence backend: how a model hash resolves to a
location, the Python return value of `exists()`, and `write`. The write
oracle `writeOk` says which locations can be durably written (an I/O failure
raises). -/
structure StoreBackend (σ : Type) where
  getStorePath : String → String → String
  existsRet : σ → String → Option Bool
  write : Bool → σ → String → TrainedModel → Except TrainErr σ

/-- The filesystem backend: `FSModelStorageEngine.get_store` joins
project path, `trained_models` and the hash; `FSStore.exists` returns
`os.path.isfile(path)`; `FSStore.write` pickles the object to the path. -/
def fsBackend : StoreBackend FSState where
  getStorePath project_path mh := project_path ++ "/trained_models/" ++ mh
  existsRet fs path := some (isfile fs path)
  write writeOk fs path obj :=
    if writeOk then .ok ((path, obj) :: fs) else .error .writeErr

/-- The object-store backend. `model_cache_key` is modelled from the spec
(triage/utils.py absent from src/): the location is the artifact identity
joined under the project prefix. `S3Store.exists` evaluates
`key_exists(self.path)` but has no return statement, so the Python call
returns `None`. `upload_object_to_key` is modelled from the spec: it durably
persists the object at the key. -/
def s3Backend : StoreBackend S3State where
  getStorePath project_path mh := project_path ++ "/trained_models/" ++ mh
  existsRet s3 key := (fun _ => none) (key_exists s3 key)
  write writeOk s3 key obj :=
    if writeOk then .ok ((key, obj) :: s3) else .error .writeErr

/-- The matrix store: the feature matrix as ordered named columns, the
metadata mapping, and the `_labels` cache (initially `None`). -/
structure MatrixStoreState where
  matrix : List (String × List ℚ)
  metadata : J
  labelsCache : Option (List ℚ)

/-- `metadata['label_name']` as a string, `none` when missing. -/
def metaLabelName : J → Option String
  | .obj l =>
    match l.find? (fun kv => kv.1 == "label_name") with
    | some (_, .str s) => some s
    | _ => none
  | _ => none

/-- `DataFrame.pop(name)`: remove the first column named `name` in place,
returning it and the remaining columns in order; `none` models `KeyError`. -/
def popCol (name : String) : List (String × List ℚ) →
    Option (List ℚ × List (String × List ℚ))
  | [] => none
  | kv :: rest =>
    if kv.1 == name then some (kv.2, rest)
    else (popCol name rest).map (fun r => (r.1, kv :: r.2))

/-- `MatrixStore.labels`: return the cached `_labels` if set, else pop the
label column out of the stored matrix, cache it and return it. -/
def matrixStoreLabels (s : MatrixStoreState) :
    Except TrainErr (List ℚ × MatrixStoreState) :=
  match s.labelsCache with
  | some l => .ok (l, s)
  | none =>
    match metaLabelName s.metadata with
    | none => .error .keyErr
    | some name =>
      match popCol name s.matrix with
      | none => .error .keyErr
      | some (col, rest) =>
        .ok (col, { s with matrix := rest, labelsCache := some col })

/-- The external fit capability: classpath, hyperparameters, feature matrix
and labels to a fitted model, or the exception it raises. Module import,
constructor and `fit` failures are all exceptions from this call. -/
def FitOracle :=
  String → Params → List (String × List ℚ) → List ℚ → Except String TrainedModel

/-- The mutable state a training run touches: the artifact store, the
record store and the matrix store. -/
structure TrainerState (σ : Type) where
  store : σ
  db : Db
  ms : MatrixStoreState

/-- The effects of one grid point in program order: the fit succeeded, the
artifact was written at a location, a model row was committed for a hash. -/
inductive TrainEvent where
  | fitted : TrainEvent
  | written : String → TrainEvent
  | recorded : String → TrainEvent
deriving Repr, DecidableEq

/-- `SimpleModelTrainer._train`: pop the labels from the matrix store, then
hand the remaining matrix and the labels to the external fit call; return
the fitted model and the remaining column names. -/
def _train {σ : Type} (fit : FitOracle) (class_path : String) (parameters : Params)
    (st : TrainerState σ) :
    Except TrainErr (TrainedModel × List String) × TrainerState σ :=
  match matrixStoreLabels st.ms with
  | .error e => (.error e, st)
  | .ok (y, ms') =>
    match fit class_path parameters ms'.matrix y with
    | .error msg => (.error (.fitExc msg), { st with ms := ms' })
    | .ok m => (.ok (m, ms'.matrix.map Prod.fst), { st with ms := ms' })

/-- The feature-importance rows built by the loop in `_write_model_to_db`;
`feature_names[i]` out of range raises IndexError. -/
def buildFIRows (mid : Nat) (feature_names : List String) :
    Nat → List ImpVal → Except TrainErr (List FIRow)
  | _, [] => .ok []
  | i, v :: rest =>
    match feature_names[i]? with
    | none => .error .indexErr
    | some f =>
      (buildFIRows mid feature_names (i + 1) rest).map
        (fun rs => ⟨mid, f, v⟩ :: rs)

/-- `SimpleModelTrainer._write_model_to_db`: stage a model row, iterate
`enumerate(get_feature_importances(trained_model))` staging one
feature-importance row per value (`enumerate(None)` raises TypeError), then
commit; the unique index on `models.model_hash` rejects a duplicate hash at
commit. Returns the autoincrement model id. -/
def _write_model_to_db (db : Db) (class_path : String) (parameters : Params)
    (feature_names : List String) (mh : String) (trained_model : TrainedModel) :
    Except TrainErr (Nat × Db) :=
  let mid := db.models.length + 1
  match get_feature_importances trained_model with
  | none => .error .typeErr
  | some fi =>
    match buildFIRows mid feature_names 0 fi.toVals with
    | .error e => .error e
    | .ok rows =>
      if db.models.any (fun r => r.model_hash == mh) then .error .integrityErr
      else .ok (mid,
        ⟨db.models ++ [⟨mid, mh, class_path, parameters⟩],
         db.feature_importances ++ rows⟩)

/-- `SimpleModelTrainer._train_and_store_model`: fit, then write the model
to the store, then write model and feature-importance rows to the record
store; any raised error propagates. The third component is the effect trace
in program order. -/
def _train_and_store_model {σ : Type} (B : StoreBackend σ) (writeOk : Bool)
    (fit : FitOracle) (class_path : String) (parameters : Params)
    (mh : String) (path : String) (st : TrainerState σ) :
    Except TrainErr Nat × TrainerState σ × List TrainEvent :=
  match _train fit class_path parameters st with
  | (.error e, st') => (.error e, st', [])
  | (.ok (m, feature_names), st') =>
    match B.write writeOk st'.store path m with
    | .error e => (.error e, st', [.fitted])
    | .ok store' =>
      match _write_model_to_db st'.db class_path parameters feature_names mh m with
      | .error e => (.error e, { st' with store := store' }, [.fitted, .written path])
      | .ok (mid, db') =>
        (.ok mid, { st' with store := store', db := db' },
         [.fitted, .written path, .recorded mh])

/-- The loop body of `SimpleModelTrainer.train_models` over the generated
grid points: hash each point, skip it when `replace` is false and the
store's `exists()` is truthy, otherwise train and store it, appending the
returned model id; an uncaught exception aborts the remaining points. -/
def trainLoop {σ : Type} (B : StoreBackend σ) (writeOk : Bool) (fit : FitOracle)
    (pyhash : String → Int) (project_path : String) (replace : Bool) :
    List (String × Params) → TrainerState σ →
    Except TrainErr (List Nat) × TrainerState σ × List TrainEvent
  | [], st => (.ok [], st, [])
  | (class_path, parameters) :: rest, st =>
    let mh := model_hash pyhash project_path st.ms.metadata class_path parameters
    let path := B.getStorePath project_path mh
    if replace || !(truthy (B.existsRet st.store path)) then
      match _train_and_store_model B writeOk fit class_path parameters mh path st with
      | (.error e, st', tr) => (.error e, st', tr)
      | (.ok mid, st', tr) =>
        match trainLoop B writeOk fit pyhash project_path replace rest st' with
        | (.error e, st2, tr2) => (.error e, st2, tr ++ tr2)
        | (.ok mids, st2, tr2) => (.ok (mid :: mids), st2, tr ++ tr2)
    else trainLoop B writeOk fit pyhash project_path replace rest st

/-- `SimpleModelTrainer.train_models`: expand the grid and run the loop. -/
def train_models {σ : Type} (B : StoreBackend σ) (writeOk : Bool) (fit : FitOracle)
    (pyhash : String → Int) (project_path : String)
    (model_config : List (String × List (String × List J))) (replace : Bool)
    (st : TrainerState σ) :
    Except TrainErr (List Nat) × TrainerState σ × List TrainEvent :=
  trainLoop B writeOk fit pyhash project_path replace
    (generate_model_configs model_config) st

/-- A fitted model exposing a one-element `feature_importances_`. -/
def mExample : TrainedModel := ⟨some [1/2], none⟩

/-- A matrix store holding one feature column and one label column. -/
def msExample : MatrixStoreState :=
  ⟨[("f1", [0, 1]), ("label", [0, 1])], .obj [("label_name", .str "label")], none⟩

/-- A fit capability that always succeeds. -/
def fitOk : FitOracle := fun _ _ _ _ => .ok mExample

/-- A process hash constant on strings (any fixed process seed works; the
theorems that quantify over `pyhash` cover all of them). -/
def pyhashZero : String → Int := fun _ => 0

/-- A grid with a single identifier and no hyperparameters: one grid
point with an empty parameter set. -/
def configOne : List (String × List (String × List J)) :=
  [("sklearn.tree.DecisionTreeClassifier", [])]

/-- A fresh object-store run state. -/
def st0S3 : TrainerState S3State := ⟨([] : S3State), ⟨[], []⟩, msExample⟩

/-- First S3-backed run over the one-point grid. -/
def run1S3 : Except TrainErr (List Nat) × TrainerState S3State × List TrainEvent :=
  train_models s3Backend true fitOk pyhashZero "proj" configOne false st0S3

/-- Second S3-backed run, from the state the first run left. -/
def run2S3 : Except TrainErr (List Nat) × TrainerState S3State × List TrainEvent :=
  train_models s3Backend true fitOk pyhashZero "proj" configOne false run1S3.2.1

/-- A fresh filesystem-backed run state. -/
def st0FS : TrainerState FSState := ⟨([] : FSState), ⟨[], []⟩, msExample⟩

/-- The successful grid point used as the C5 witness. -/
def tasmExample : Except TrainErr Nat × TrainerState FSState × List TrainEvent :=
  _train_and_store_model fsBackend true fitOk
    "sklearn.tree.DecisionTreeClassifier" [] "0x0" "proj/trained_models/0x0" st0FS

/-- A fit capability that raises for one classifier and succeeds for the
other. -/
def fitFail : FitOracle := fun class_path _ _ _ =>
  if class_path == "pkg.A" then .error "boom" else .ok mExample

/-- A grid with two identifiers, the first of which fails to fit. -/
def configTwo : List (String × List (String × List J)) :=
  [("pkg.A", []), ("pkg.B", [])]

/-- The run over `configTwo` with the failing fit capability. -/
def runFail : Except TrainErr (List Nat) × TrainerState FSState × List TrainEvent :=
  train_models fsBackend true fitFail pyhashZero "proj" configTwo false st0FS

/-- A filesystem state in which the one-point grid's artifact is already
cached. -/
def stCachedFS : TrainerState FSState :=
  ⟨[("proj/trained_models/0x0", mExample)], ⟨[], []⟩, msExample⟩

/-- The one-point run over the pre-cached store. -/
def runCached : Except TrainErr (List Nat) × TrainerState FSState × List TrainEvent :=
  train_models fsBackend true fitOk pyhashZero "proj" configOne false stCachedFS

/-- The one-point run over a fresh store. -/
def runFresh : Except TrainErr (List Nat) × TrainerState FSState × List TrainEvent :=
  train_models fsBackend true fitOk pyhashZero "proj" configOne false st0FS

/-- 2^32, the word modulus of CPython's Mersenne Twister. -/
def m32 : Nat := 4294967296

/-- Word `i` of a 624-word generator state packed little-endian into one
natural number, 32 bits per word. -/
def getW (s i : Nat) : Nat := (s >>> (32 * i)) &&& 4294967295

/-- Replace word `i` of a packed generator state. -/
def setW (s i v : Nat) : Nat := s - (getW s i <<< (32 * i)) + (v <<< (32 * i))

/-- One step of `init_genrand`: state, previous word, index. -/
def igStep (p : Nat × Nat × Nat) : Nat × Nat × Nat :=
  let v := (1812433253 * (p.2.1 ^^^ (p.2.1 >>> 30)) + p.2.2) % m32
  (setW p.1 p.2.2 v, v, p.2.2 + 1)

def igLoop : Nat → Nat × Nat × Nat → Nat × Nat × Nat
  | 0, p => p
  | n + 1, p => igLoop n (igStep p)

/-- `init_genrand(s)` of CPython's random module: the base state the
key-mixing loops start from. -/
def initGenrand (sd : Nat) : Nat := (igLoop 623 (sd % m32, sd % m32, 1)).1

/-- Index wraparound of `init_by_array`: at the end of the array restart at
1, copying the last word into word 0. -/
def ibaWrap (mt i : Nat) : Nat × Nat :=
  if i ≥ 624 then (setW mt 0 (getW mt 623), 1) else (mt, i)

/-- One step of the first `init_by_array` loop with a one-word key `k`
(CPython's seeding for an integer seed below 2^32). -/
def ibaStep1 (k : Nat) (p : Nat × Nat) : Nat × Nat :=
  let prev := getW p.1 (p.2 - 1)
  let v := ((getW p.1 p.2 ^^^ ((prev ^^^ (prev >>> 30)) * 1664525 % m32)) + k) % m32
  ibaWrap (setW p.1 p.2 v) (p.2 + 1)

def ibaLoop1 (k : Nat) : Nat → Nat × Nat → Nat × Nat
  | 0, p => p
  | n + 1, p => ibaLoop1 k n (ibaStep1 k p)

/-- One step of the second `init_by_array` loop (the `- i` is taken mod
2^32 as in the 32-bit C arithmetic). -/
def ibaStep2 (p : Nat × Nat) : Nat × Nat :=
  let prev := getW p.1 (p.2 - 1)
  let v := ((getW p.1 p.2 ^^^ ((prev ^^^ (prev >>> 30)) * 1566083941 % m32))
    + m32 - p.2) % m32
  ibaWrap (setW p.1 p.2 v) (p.2 + 1)

def ibaLoop2 : Nat → Nat × Nat → Nat × Nat
  | 0, p => p
  | n + 1, p => ibaLoop2 n (ibaStep2 p)

/-- `init_by_array([k])` of CPython's random module, the effect of
`random.seed(k)` for `0 <= k < 2^32`. -/
def initByArray (k : Nat) : Nat :=
  setW (ibaLoop2 623 (ibaLoop1 k 624 (initGenrand 19650218, 1))).1 0 2147483648

/-- One step of the in-place MT19937 state twist. -/
def twistStep (p : Nat × Nat) : Nat × Nat :=
  let mt := p.1
  let kk := p.2
  let y := (getW mt kk &&& 2147483648) ||| (getW mt ((kk + 1) % 624) &&& 2147483647)
  (setW mt kk (getW mt ((kk + 397) % 624) ^^^ (y >>> 1) ^^^
    (if y % 2 = 1 then 2567483615 else 0)), kk + 1)

def twistLoop : Nat → Nat × Nat → Nat × Nat
  | 0, p => p
  | n + 1, p => twistLoop n (twistStep p)

/-- The full MT19937 twist, run before the first word is output. -/
def twist (mt : Nat) : Nat := (twistLoop 624 (mt, 0)).1

/-- The MT19937 output tempering. -/
def temper (y0 : Nat) : Nat :=
  let y1 := y0 ^^^ (y0 >>> 11)
  let y2 := y1 ^^^ ((y1 <<< 7) &&& 2636928640)
  let y3 := y2 ^^^ ((y2 <<< 15) &&& 4022730752)
  y3 ^^^ (y3 >>> 18)

/-- The generator state after `random.seed(seed)` and the first twist. -/
def pyRandomState (seed : Nat) : Nat := twist (initByArray seed)

/-- The `n`-th `random.random()` value scaled by 2^53: it consumes the
output words `2n` and `2n+1` as `(a >> 5) * 2^26 + (b >> 6)`; scaling by
2^53 is exact and order-preserving. -/
def randomDouble (st n : Nat) : Nat :=
  ((temper (getW st (2 * n))) >>> 5) * 67108864 + ((temper (getW st (2 * n + 1))) >>> 6)

/-- The tie-breaking tags drawn in input order: one `random.random()` per
input position, from a generator freshly seeded with the tie-breaker seed. -/
def randomDoubles (seed count : Nat) : List Nat :=
  let st := pyRandomState seed
  (List.range count).map (randomDouble st)

/-- The descending comparison on (score, tag) sort keys: strictly greater
score first, equal scores ordered by strictly greater tag. -/
def keyGT (a b : Rat × Nat × Bool) : Bool :=
  decide (b.1 < a.1) || (decide (a.1 = b.1) && decide (b.2.1 < a.2.1))

/-- Stable descending insertion: an element moves before another only when
its key is strictly greater, as in Python's stable `sorted(reverse=True)`. -/
def insertDesc (x : Rat × Nat × Bool) :
    List (Rat × Nat × Bool) → List (Rat × Nat × Bool)
  | [] => [x]
  | y :: tl => if keyGT x y then x :: y :: tl else y :: insertDesc x tl

def sortDesc : List (Rat × Nat × Bool) → List (Rat × Nat × Bool)
  | [] => []
  | x :: tl => insertDesc x (sortDesc tl)

/-- Modelled from the spec: the Ranked Prediction Sorter
(`sort_predictions_and_labels` in triage/utils.py, absent from src/): pair
each score with its label, seed the pseudo-random generator with the
tie-breaker seed, attach one pseudo-random tag per input position in input
order, and sort descending by (score, tag), applying the same permutation
to scores and labels. The tag stream is CPython's `random.random()`
sequence (Mersenne Twister), the spec's deterministic seed-derived
pseudo-random tie order. -/
def sort_predictions_and_labels (predictions : List Rat) (labels : List Bool)
    (seed : Nat) : List Rat × List Bool :=
  let tags := randomDoubles seed predictions.length
  let triples := ((predictions.zip labels).zip tags).map
    (fun p => (p.1.1, p.2, p.1.2))
  let sorted := sortDesc triples
  (sorted.map (fun t => t.1), sorted.map (fun t => t.2.2))

/-- The packed `init_genrand(19650218)` state after 312 of its 623 steps. -/
def igMid : Nat := 43451447770933355967655871035138949693569261124825171477259371368242040963630315041640600927062429357342263245072047913504023898976222663001529237181465201772843534221011158941461788237762698589261273801769281502502593118350248735333713311198202497828243017791061617341960439265842889406544782867384102031255415178900271700980034168162099017956864365589687933957192069187376259297852575715811388574171215432492658087185762998133264937618221271755098965785706070432997411298302669325798217537933293030347163471750845422681163572671323163202114877642119962417042471289236322169711500740026105874938956762201603260389777781630279713951086029849345573805932629935728933211559110808097128740387659360937505283811305307347869883257125318992063172672017615398536223451585974537588286022205134009526045686872405388374260265035160946462461317145380067221477742827625033291004988186600847047377754436956112252765415547548408556447351514012263030872155378162443767249075800305742610089963329250678542759130875153917902877000807677462921581614667852151540757676825924685240218932446899250696312449506135479343622804623859202371994529890468382846930685411934794688331648287209458802119989744293689297836832290230577568486221523698209302874511121874762150532638410906132104470889309461291278796138128439899576644934370820510807927041579775331321262853219456273416624914629492046704521098886302371997733497169681590999013636545589526730424048338678309150088059101227216260252295312930593924952910598006343530852486415054899957422866806481309347647590361328438947697292746295807809428922793414666431031814032861628969263850718323415981880030858167528846350251046504303358726259363323070269072187751201049724611599535900338130652159317711611833200261613695454102202814578620205541009402153224278689166045349627866295907532129503895413832810001764573153936452102111555030652334240483122102594841884380674317392563630683854541905006240664521198153740937166191474997625752436218240484367957684741526689649510263592542862349097987484326349923217637403156985861455776990955562277159694815042715216724617281559276212445232985599228436390356449552586460255915535860776483174844518320695425225063695481080178103231631950275973599455300666837807626044694234147242514012101510230019527491077792176108322681805294472844587867838741311282738328647507874489747241806324255865685263010191263492795301111565976750841965370576184466410593308712339528181219905472475204122126760987352893962695606471420148579799216517439021817837338880498212480863841635080417758859006076745928135992556866011781792223422737565911596816399712199640792654318509917637608884290031624551158142734411201386157483991292013621678138939288482992546376894032653839238558962841745275990259484118213751656221934669102001560497906162914383442900645772006269349662366806111990602419656871248887642639965754962717384557626116538075248782173671677328111889848696227829607958952219328265125408926725048538271658360205449107884774215457740765053921576049468809462583970011502335658

/-- The previous-word and index registers at the `init_genrand` midpoint. -/
def igMidPrev : Nat := 142734034

/-- The packed state `init_genrand(19650218)` (seed-independent). -/
def mtBase : Nat := 62685089405509111925910797243914719854890513935494713084094713797279779630627496305943786046941309007281293105221577504421353501605599255248785149356818580886163074212016138319710181437623915839386196989339984175865611290932895638485827512283879634622589907034847096838980553398268338905605705315464924834076955485269257682765843392777664062904318116756644819538761883164862381873685805923051342196114892111881287659915424456096361326051748180740843339721465950121631833352165428366344241754810081140762710579390137795215443629123183303201044796731629341661542390258966032612552126580439913324626563213547393121217728067632048719897064596438939163041106934301355643192260261867872030533878188557727018817797219012064641958276099544136480610826250078810896212505254064619595899307426216931651016613164877613570296351724055264357110051005104450572173606849938075379012356137114572525910752676385589168436483206759652170097284388598518122222819376116616668668677988651997615236221431416155794821321118852088948452164682783715959922435191327367306488124638818446090532334864386359317233873012285172875896330714873881780586230596002778688422250420590175698633544778262136505069053046737202152515000629854634631225453245996997340762744567896897683212149150732909707719966588817675821630380251456266588599804209831660991462715440400663143017564651072677052296295930367391822676512661642282350234567553218318066651318510488484545671729568971887621684270732981974442582657502555066960418690332945218280990034155505553171409775830458482159957769211244505225186771766058316021949327301666418107251589707938065072144733816368743637495699897181007119363672460040974223449086641663004605507793014252452324150238463715514559124307431648478948480649031081489229583165223570218974125422263886587593014744330199975749832650568652404661542746543584685860761547297457070273167102314576665676644281998277713093924236551494770138725647883566971887853912300960949802636372591951717316415323846182747445131420005722224687602711525724505110953736568981699982016588947035894059736087136235396798804019434387781559696138411966704777989194870090051835909943079457649936020314680876367897457337488804889342331824364904005266943816631681518612047693872607083945336048154993001716858914072302230374294986610531277637599664647525761147514008899238689946802093944865612982597431648203028809043429562401771290925843222821220221381984318518256971016750121270624021542153515130386081256853244444367484914891752438843250797295149886721543902585582757118492217204960123203770309672216674331373413106027454841661967870247822106376003696537006476355273043676224973894002060133928765135363584693312631060562155459381152426642778209514491263275588735458188352331628933634618912177576995916817414488324819680108333628484452298807271017999262374749573133359090629722111402666396222385680310709557844049479865847370371052888681758484468279513921172987571336140289500145715018352119752770038578015899178947425013401300127437407370742417936980607757405410607208376626705322894782663757703548808362869195819947150150865798288136994832911439410269353230208345410503242199606186650417333579047848825834242257112060317620885151293421378661990197161958015730358249113963865616811805417654957899792836277351433146683316643158745577273742588847277405020330699298979666450169324546781433015633218213248018986767013905101885085728066131985273947793365444250280947765884488609302913437528001802423347517836456663978922564542901160075954132077499502061844004777463229898312792357201472450520034421742281215395838957029567457078867297742321364249618062920323524100796395855490398720473188748064226082130624085325443879193454095100721902723688608983702297802922465778395428510531587340343771240068168890882622394112252370643121994567113348850616779414952571984309063927162547038575769391208822294299053225776973195785292510157058775147687493667385905281728614066936870793483631104130486096422866739022254251631022238998824784309871214211336594149372534724828516536519652291847191320934127662041939033266344757810255450761243406685982638804631309022215852991706323223872506356963395668107287976200691035733250165615782065576159415303394415966535152327550107294310945533761757937224536792146711105700674959937207778503501562879445241463662142281185819506210181780721218897488871995890898495582077564387715740371190275817001449471008660140255770382875594805433223352833476546594040372715841292252983175468170554585838014797017976570586587751089146553833551413146641975370517778330202052282190648141351908509904289169596729111939424597802445523234111653813513351586367960175769546506050051493655326103823629699245586418016468660736051425039803522537493270385743437525903109563398688573456345292160567787373069854610200635728800730405759403691875432721043746233636765094325962472698626875833148826372580999341547042531665331710768365982359935219565301595187067772247975847412037958098451506998773182171027695752045356894447709388159633645629545493246019135820915900506906032640701290570506299065346661219735445730896769091171352761432210047450382980030625592142825700677633624952217795344145832513082782540989616413040988227257601039794195623143595351637462190706636535912449334420058581521218743569834717812580171279915160794789675762903718339466089866492140118823551337811927493524761760551434001520245324751568861558716803095718510972066599595072196209156923318071322517301806566620458899402166430591631348363311478802800521980525250372511467674969151489645720009661369785217086930227581405674315978920044798755483144811069077253851302610194739624245401270682864202663540116818822475326676741780611737275972111438408802370422377608919256570335384654037352344114105999356653180812503717835632673409647782213628400383443178293619326757139369589058612122088577237252104060778375287897543799460272211546791798613974575310224299012205778134871255296492395729078221387894808011355820153110205338707003138385845672884757408327786763143168159295742358655797897448897721796416755370

/-- Seed 8: packed state after 208 steps of the first key-mixing loop. -/
def mtS8U1 : Nat := 62685089405509111925910797243914719854890513935494713084094713797279779630627496305943786046941309007281293105221577504421353501605599255248785149356818580886163074212016138319710181437623915839386196989339984175865611290932895638485827512283879634622589907034847096838980553398268338905605705315464924834076955485269257682765843392777664062904318116756644819538761883164862381873685805923051342196114892111881287659915424456096361326051748180740843339721465950121631833352165428366344241754810081140762710579390137795215443629123183303201044796731629341661542390258966032612552126580439913324626563213547393121217728067632048719897064596438939163041106934301355643192260261867872030533878188557727018817797219012064641958276099544136480610826250078810896212505254064619595899307426216931651016613164877613570296351724055264357110051005104450572173606849938075379012356137114572525910752676385589168436483206759652170097284388598518122222819376116616668668677988651997615236221431416155794821321118852088948452164682783715959922435191327367306488124638818446090532334864386359317233873012285172875896330714873881780586230596002778688422250420590175698633544778262136505069053046737202152515000629854634631225453245996997340762744567896897683212149150732909707719966588817675821630380251456266588599804209831660991462715440400663143017564651072677052296295930367391822676512661642282350234567553218318066651318510488484545671729568971887621684270732981974442582657502555066960418690332945218280990034155505553171409775830458482159957769211244505225186771766058316021949327301666418107251589707938065072144733816368743637495699897181007119363672460040974223449086641663004605507793014252452324150238463715514559124307431648478948480649031081489229583165223570218974125422263886587593014744330199975749832650568652404661542746543584685860761547297457070273167102314576665676644281998277713093924236551494770138725647883566971887853912300960949802636372591951717316415323846182747445131420005722224687602711525724505110953736568981699982016588947035894059736087136235396798804019434387781559696138411966704777989194870090051835909943079457649936020314680876367897457337488804889342331824364904005266943816631681518612047693872607083945336048154993001716858914072302230374294986610531277637599664647525761147514008899238689946802093944865612982597431648203028809043429562401771290925843222821220221381984318518256971016750121270624021542153515130386081256853244444367484914891752438843250797295149886721543902585582757118492217204960123203770309672216674331373413106027454841661967870247822106376003696537006476355273043676224973894002060133928765135363584693312631060562155459381152426642778209514491263275588735458188352331628933634618912177576995916817414488324819680108333628484452298807271017999262374749573133359090629722111402666396222385680310709557844049479865847370371052888681758484468279513921172987571336140289500145715018352119752770038578015899178947425013401300127437407370742417936980607757405410607208376626705322894782663757703548808362869195819947150150865798288136994832911439410269353230208345410503242199606186650417333579047848825834242257112060317620885151293421378661990197161958015730358249113963865616811805417654957899792836277351433146683316643158745577273742588847277405020330699298979666450169324546781433015633218213248018986767013905101885085728066131985273947793365444250280947765884488609302913437528001802423347517836456663978922564542901160075954132077499502061844004777463229898312792357201472450520034421742281215395838957029567457078867297742321364249618062920323524100796395855490398720473188748064226082130624085325443879193454095100721902723688608983702297802922465778395428510531587340343771240068168890882622394112252370643121994567113348850616779414952571984309063927162547038575769391208822294299053225776973195785292510157058775147687493667385905281728614066936870793483631104130486096422866739022254251631022238998824784309871214211336594149372534724827964793396812596103257966749300394418293983893252128048876171664038610683307808361383364620186640729578795839302158051080829204948682448808040161827142839151271752447151318477941634825315264161465827409894315970226355201301795187674330760009817389168602636773029995016978437209715956228189147103161537958574566844296833670487673540160971531998712489366565917896672478537299726371705840728749313409486231239188561242430145154054208137787466312353998343223228614121998655014064409315062703536020192474856253570664828011873635861822087971565355684084908077175456944729123601743030886488471139438588746299060419374368289501743513161850012205290400420216081751398578216438695746280044177608749520140968817448392675053247238844316037799725179195712812809681689739260022581543033141264680368637858405014515467595627309890839271575082498288362486631333924495070816614872470499256900945791965449777399109229083338519674790306887930597532206843616799133805130066803926693059337095232361170200123613349961379314019782265885768807215271493834590380142818292114770755488314614305411359767120163662682757941685167360495584803466570669448938505673444326748663165362824021184311955391793199698505778057176149888227522516781521531165653327499922125282223068334681070416387265638953460151737401444859760507425083974609099033619540246127464614949570902762669174459633000526791408236121212075888512136944193701263425879100203788174683633915426332240344358641626577336782974050048277828768063153787492392419624427454062176030270498069473750242396643234399114252701101531907728672161743044884876272591636128356758637832842966558915822663299933768070565757562375164858414353604262677379703100444285228500933986539332604798590175294154696234591226460390754167919882080049398695269865054785544503007759891533917042871849095305752971606799587620934419939267242763735400997608125298391838378965982593555110722885329190744361194467457970433723631721032705204751923747919895813453807678561990335926402313028222216231060586221495442657411585706

/-- Seed 8: packed state after 416 steps of the first key-mixing loop. -/
def mtS8U2 : Nat := 62685089405509111925910797243914719854890513935494713084094713797279779630627496305943786046941309007281293105221577504421353501605599255248785149356818580886163074212016138319710181437623915839386196989339984175865611290932895638485827512283879634622589907034847096838980553398268338905605705315464924834076955485269257682765843392777664062904318116756644819538761883164862381873685805923051342196114892111881287659915424456096361326051748180740843339721465950121631833352165428366344241754810081140762710579390137795215443629123183303201044796731629341661542390258966032612552126580439913324626563213547393121217728067632048719897064596438939163041106934301355643192260261867872030533878188557727018817797219012064641958276099544136480610826250078810896212505254064619595899307426216931651016613164877613570296351724055264357110051005104450572173606849938075379012356137114572525910752676385589168436483206759652170097284388598518122222819376116616668668677988651997615236221431416155794821321118852088948452164682783715959922435191327367306488124638818446090532334864386359317233873012285172875896330714873881780586230596002778688422250420590175698633544778262136505069053046737202152515000629854634631225453245996997340762744567896897683212149150732909707719966588817675821630380251456266588599804209831660991462715440400663143017564651072677052296295930367391822676512661642282350234567553218318066651318510488484545671729568971887621684270732981974442582657502555066960418690332945218280990034155505553171409775830458482159957769211244505225186771766058316021949327301666418107251589707938065072144733816368743637495699897181007119363672460040974223449086641663004605507793014252452324150238463715514559124307431648478948480649031081489229583165223570218974125422263886587593014744330199975749832650568652404661542746543584685860761547297457070273167102314576665676644281998277713093924236551494770138725647883566971887853912300960949802636372591951717316415323846182747445131420005722224689059398543401992946036843085733193594578560968687775676057109520883739033898539000052644115861626472634035351772227318826016300778103881315756483104036477700927945289317324867397420597279537581702260295749880440236194574958415905297573851308280563043712868485319525882286243244296565837764704796820501125970919550945114862333306734482760395525422080511812875314793383252674925244489500798804792670526659084010535645175023529574546138431521678217926654449258032183628737130670761238513821285651634125939258871879872128808033405273647062017555177034768879745088518259994788900461467880448659002785360425768488277422616464847011498122973746863707827284029362326017937475086467502582283781095167905554602150184793486849235753656430995444010825491742836491384757842816720625258499710639668568107661262043659620708853975431752888069060848858588910195001613631087498147336727356593110546227733171556740261498560715525924778000998749133258264930117392869609004378522528152472007095441657032140718073057530809822861686567798889599217231730856684080421374015488945101848447205329669741162875265667659293455245069591732385898970307217188207024640840203605115408767141332860614230855359833353651664991821982202306898588670035503906925684488983922725400561491547733908210800900852915372929247741648853795800685410871335033629629483432055989888135091806525953614136871542242259914351606244278425030392204623104219770572982311963418201548920567375442812970920952703098697528583029804754069459734925628350838430213682693086703277252862608765392556669136239881609389976143538449075813223971839280794322863560762549993163047613361482340524943852057838141936420750943361262571974754467225410537802886529624391630805054947457475542490072803619758536344849279958897962451746273055627052455300461971546895142493052629603156736024256484880444692311611461318601809642697163883289671553241251242243059961616208794661529582407404738950785942747572253509763681768748863341639405066036003357275144038462791202786268401050291104828210374408241590759138599244627979231297514856888450187312431553730663099455850823564264179530609270735949407733451716332810806584516000494114713178151677927320291693213542553316768139292682715330721664371016500710448770600485028659555585720321515460094280477888215803728051292742003108196024629694517165071098558009152894616498392162233993191621339673999517908805651318343584675055225035784830531874048111489295673660403654013398020103310124766207798020312742227162663976537180061935558276903582074536279852577150382171063316932003510005105131007871365032866031478767811055007824098917060202630044938875402433608510152863641593780846651551792694096581786843431727904397132936331564199820801788400017684390025307268660097162440076623274518858385229048308060653044832062922157817940755904474372662211290917030389065431171444834813682760154065468790371340513124660805809381015809795783121700901468524900026819760953990015890557150526875723810755929786007793137812298199396718683569195922869021115873641887842580409240488662621030452275100124202440621407893550264494950796836718389157091779806079738593029423993482431752242715330629723248835679612779244212597307317988234080668265113698942041309657119854971516578481061844886335363219380355865134454113439636093489338746571125826907350442427274463550251372082394909567113504385805247725897034143468302076473485340531590768151723486750463358790891696104053264680095247324683757706099797424366199940082772694345178668870388919228030422732925860016577420116311498340256332802287704267562215624068697588195874603313837756173603316569702230649622512406892900027454582035223414205136174479861360517014248647726169722868459279101399596077996562868846752625384417939086065684585449189024976408598046615610317786931045647446432075038083475376718461963118966794888083919359697456861274368298262705969224018444505731976566616557524640141613314693499374396809120526143010295297806708919367676042462761315895209828697523363809007714926226236053441096647370594573811732849133082282

/-- Seed 8: packed state after the first key-mixing loop (624 steps). -/
def mtS8L1 : Nat := 8165164309286298782177420911964262915049245885274096665602538503394791433146533752112101476870368033245951624197953000964910162479102854788303904856094480511563301484494122831826223812881225006660971913215448486268734307824113663105721740822188639654240065539321466162125184699864027012907200453327317447957511132616509219591937617419171991808097979594964735412274104752620093030759006054326647491302232148786454464624858728428518607239656137367018536718634873414609389055849782339534903121910747359466368813367208473634809715339122675879517567849731367234580243781570920550470790371291482878557166451307773129604892284156679260270847506170225097228300845160956247010741371011288028415859472226905416390463883428536704024101423714885713030328307172443597527954148010843149474646166721840385788860043017392396422602036300393870912185260635767822670524552791540071255914446301015867609090362048235897306507817845283510325730562608356637488292401448714795122012226147030705637921265226592126607594005902644218951786618036709501425573310571133121805412558685784621403169744913231156506362810770762266235830436442403309580003155199635146361422279816584901029117766518109672415982130418474751360504221939109637145213579263306655400997823662973880472097142624046167744126305179830694335089817818773244367288409968624024422692888604640344785951037752590825544001176974270556836887311321508895612350771464120912796274773790036642383784707007284021574902702633872331821931466901199698634423538137026595548219912306412063510324846071463722885716238861523400492322221352465455213556582598795456459384577751229168468625632116311929205336781697538073918562519785085891975160096538597143687252395114052520973722837292892265348288000568301746780560502611083173979048682363827115047084965253895939953498171601046037585161951556361862067070549298910203228737204935773252484177078966500559877947940428119975057573046417533485171236543077307758430904358040588885427394751731812857058955812208345284898469404891863420551864622325013390533853205477511594616838016526007102713407679087988930968938882319828991248512208325903343018779301339273240576006254290642489252926493897413850263764953370829131127470156334642851909443446234073090337774707814051322901936367278515282740745189313504779959958501202880129092705833050578871273417377240724521643055469643869060558452317442897549132089471368133491431901598126353239735513217877128638193536199438763479157014812221763329929994381695982639988170332997243252911009242074987675378560433606853096944447111350180881637700695274111676317066185913664423599237429684528453311467779118489312590298889486242193595295053336698923860582932711875453590638596793742234993951681822606327894503219722350817727469365137636577291983434585377274314757419491145441391215526893646661054228263180551267187185380953097282387605252341479310740681913219745687663171769422437019647345745197869506198227614822353228386901080712515128660771615531264289320061337398835777987847090968123443912368284891407564702885294602783012435207641841897796962642935250209719212700594268345711699186789234874015204891087817344793698010266960524688947055701907365833863071408592262347970449215772479120602054531618158767807573430450034539211039212246140081715011182748948625647963492874374873432737185434924058507929159945052718604152666700874594074231308235993112500727338376954180207221271449147226688020006573388658214003913331007079165223724407771609014811783989223947904080178676639501356359238387707475537112225722163115955145132845648634565494057877264866071001935235581614095827892003417359724082158872046404163361865978848191139075542041390720556532423586167055550498547329241309900165711474543619720148406992989427630966384074828107381960614290155160079116507674751065607860579175244555446031909708854590543910944329441569959944873916974439349276629135969804334839121153925656630058748264959639375351943544693524675582506626641512951454362942341215459226046528121956376810248819060967737747561662796424780608640031739560803933017759458923880708872643981047741536577778878291733870077861899461887027306089907385994006420195965565806092635884718880178493216056859529943769306257613648423787358281024569244558518470421598310836552241822954484525893603107987510454373410849536321090041099556005161632816398708981605569974175227604458024485844206330753929583415341809249131800676439153787782680889156701784310045750571503901898245251926921990650644580711731694081301609912170371482077973314267442379965980085760690783194874669321149829388677795406330367640044805725370058808434338071348343060296408013620823343857386093677675187556878471213285138559415055137834096054114084812361561142457360705093834516937314370134661291996804268242557757042375993393490605537630790302343261259932280880144638199253780135487236801205273118783061687421348642396956663213466363096408765816946295248666548948253492743690822097230581373853478010450625913395352258171904287054765020263947635443137126371169930909919063794025313174992050730707329400609135744034572784544483158841632263809406283454643223621060593851279202189831980905263383170334700135494749203639675173754981352792699913489213368600788547118123909938334003794153937049900301040353789748258833693770197918975900285052923714377345927573279893115964162805446146383040298559169777584210930803027817510150971348675694293892988006068333999873466071411276961124700662522478065329142585667523117656843451721205288851233631161705398855034576590903301126774927436527558520425092881408605218919817678206900497997819183955923494065560925243687110397988609576194845476397892346993366396658705469209531345360995703827175182271888227884615136072694319466345154422725118561483263728303965006426644948986683588654830489909742402887266319295495361635945381221663733094596336396209042305110662210484264020891684017520378698942750627327686410138360088072485711578642780611135538717098194443156037590939093403143210741944018384638612570201901886787192007070206332814087964263843905275752905433821670

/-- Seed 8: packed state after 208 steps of the second key-mixing loop. -/
def mtS8V1 : Nat := 8165164309286298782177420911964262915049245885274096665602538503394791433146533752112101476870368033245951624197953000964910162479102854788303904856094480511563301484494122831826223812881225006660971913215448486268734307824113663105721740822188639654240065539321466162125184699864027012907200453327317447957511132616509219591937617419171991808097979594964735412274104752620093030759006054326647491302232148786454464624858728428518607239656137367018536718634873414609389055849782339534903121910747359466368813367208473634809715339122675879517567849731367234580243781570920550470790371291482878557166451307773129604892284156679260270847506170225097228300845160956247010741371011288028415859472226905416390463883428536704024101423714885713030328307172443597527954148010843149474646166721840385788860043017392396422602036300393870912185260635767822670524552791540071255914446301015867609090362048235897306507817845283510325730562608356637488292401448714795122012226147030705637921265226592126607594005902644218951786618036709501425573310571133121805412558685784621403169744913231156506362810770762266235830436442403309580003155199635146361422279816584901029117766518109672415982130418474751360504221939109637145213579263306655400997823662973880472097142624046167744126305179830694335089817818773244367288409968624024422692888604640344785951037752590825544001176974270556836887311321508895612350771464120912796274773790036642383784707007284021574902702633872331821931466901199698634423538137026595548219912306412063510324846071463722885716238861523400492322221352465455213556582598795456459384577751229168468625632116311929205336781697538073918562519785085891975160096538597143687252395114052520973722837292892265348288000568301746780560502611083173979048682363827115047084965253895939953498171601046037585161951556361862067070549298910203228737204935773252484177078966500559877947940428119975057573046417533485171236543077307758430904358040588885427394751731812857058955812208345284898469404891863420551864622325013390533853205477511594616838016526007102713407679087988930968938882319828991248512208325903343018779301339273240576006254290642489252926493897413850263764953370829131127470156334642851909443446234073090337774707814051322901936367278515282740745189313504779959958501202880129092705833050578871273417377240724521643055469643869060558452317442897549132089471368133491431901598126353239735513217877128638193536199438763479157014812221763329929994381695982639988170332997243252911009242074987675378560433606853096944447111350180881637700695274111676317066185913664423599237429684528453311467779118489312590298889486242193595295053336698923860582932711875453590638596793742234993951681822606327894503219722350817727469365137636577291983434585377274314757419491145441391215526893646661054228263180551267187185380953097282387605252341479310740681913219745687663171769422437019647345745197869506198227614822353228386901080712515128660771615531264289320061337398835777987847090968123443912368284891407564702885294602783012435207641841897796962642935250209719212700594268345711699186789234874015204891087817344793698010266960524688947055701907365833863071408592262347970449215772479120602054531618158767807573430450034539211039212246140081715011182748948625647963492874374873432737185434924058507929159945052718604152666700874594074231308235993112500727338376954180207221271449147226688020006573388658214003913331007079165223724407771609014811783989223947904080178676639501356359238387707475537112225722163115955145132845648634565494057877264866071001935235581614095827892003417359724082158872046404163361865978848191139075542041390720556532423586167055550498547329241309900165711474543619720148406992989427630966384074828107381960614290155160079116507674751065607860579175244555446031909708854590543910944329441569959944873916974439349276629135969804334839121153925656630058748264959639375351943544693524675582506626641512951454362942341215459226046528121956376810248819060967737747561665396805534271948198937943155487996595273086043410332158438683396448588026322932297884929751568741507935901171172161639728423086562085935799477368159314353510552757013640009039991644322576027052591916790806746983565937181897080760064697704519499022633668867939727254209185554321965004288798842983753928138372599588902826251841052806526010792648259610452102400818906328272347701923325342010811639227130079516046383327464045457872777807860776209785865331305049831812106002401757335769593504211756329859813607363609376700782448159919128618957076931204361793254672865596691799049510264553168330663639823349284210500261252437276554524387620918077469917820319056146595108522612565964896887794177207065569243843135611573634173387445654058096997584046864646802559169835450965394991582155487602283796672614174943849160901564454669990758873022876864460348811262864942464394668946666882676976168776114012621444909240435889526435631745803694318934760344196597016021263707622044596938415050605677288665645568474079606698470415794314495329299819074660630210063162848209400008492615908476344007178275766387782704791619369736786388559514693923681658525370256934497778019997040245606199616425667808235850824440170682702541373720150072312713972653126579333693066426113942251526910388826521467099115434752843133916877110620547580612787759463522382016580408709797120199127023340969754530909225579319618424448102692217151796930361759999927118878011963817015381328408325315445266305214758090768684484644454502350564787616865787199586036275173091662818740386966726417296717366638765512150398651064406170292265360501556277224679120695052087807538336104786837873061283503861162273246105780355298547073295478384461622631969079922582356980267043581589226706377463278498115100695961844907751490403034234196096088061419342307052339664096440527795535686769989090585268804570913912296294964969280303771297674774235644577189900899678451109318981935934938426270434910499033819131399258830746543418422912901894975503718650393421209719852100950916011152781798

/-- Seed 8: packed state after 416 steps of the second key-mixing loop. -/
def mtS8V2 : Nat := 8165164309286298782177420911964262915049245885274096665602538503394791433146533752112101476870368033245951624197953000964910162479102854788303904856094480511563301484494122831826223812881225006660971913215448486268734307824113663105721740822188639654240065539321466162125184699864027012907200453327317447957511132616509219591937617419171991808097979594964735412274104752620093030759006054326647491302232148786454464624858728428518607239656137367018536718634873414609389055849782339534903121910747359466368813367208473634809715339122675879517567849731367234580243781570920550470790371291482878557166451307773129604892284156679260270847506170225097228300845160956247010741371011288028415859472226905416390463883428536704024101423714885713030328307172443597527954148010843149474646166721840385788860043017392396422602036300393870912185260635767822670524552791540071255914446301015867609090362048235897306507817845283510325730562608356637488292401448714795122012226147030705637921265226592126607594005902644218951786618036709501425573310571133121805412558685784621403169744913231156506362810770762266235830436442403309580003155199635146361422279816584901029117766518109672415982130418474751360504221939109637145213579263306655400997823662973880472097142624046167744126305179830694335089817818773244367288409968624024422692888604640344785951037752590825544001176974270556836887311321508895612350771464120912796274773790036642383784707007284021574902702633872331821931466901199698634423538137026595548219912306412063510324846071463722885716238861523400492322221352465455213556582598795456459384577751229168468625632116311929205336781697538073918562519785085891975160096538597143687252395114052520973722837292892265348288000568301746780560502611083173979048682363827115047084965253895939953498171601046037585161951556361862067070549298910203228737204935773252484177078966500559877947940428119975057573046417533485171236543077307758430904358040588885427394751731812857058955812208345284898466226035616954145762040900475061191234069991432991086386865810882097366573540981967899661152229147430268799423256300716816283397345910418797752710303879047289276255005393454036198007034952172982003083600375067152875608226968551230034518630009632742489104840669156791933087573776763898911268418869429389574865078020614113260585748569968095779232600637717697804426859741748457749445908474670121043884773902980961717660685110083992918320948662752596543178388553458086942522189583738626508760838291549787210758021372064940838520685529720887391509445337914173123732614337898117691697889371868170489951123432814714894959266543561449090240501943508903286410907006659695695498888429738795104038062556942907229178644588536648224389084187362933606276391885930429837531355281802955649339353929863519903859972475805487015344228654633725405396429894962433160940104569728531733165981969328097259862100091170473861782609079870288686631194844000910278970929698617106709654141771670557702595209492870274881788734226146941770027769081852298189053602508639872417285957596800254291695615269401165489672551691159297112063634694853443760667966321495828897269631840428656479955054277727654616798104409797238618257192760343438328681307597051740734097718745613784069982633851612201622841747494270423340472714222069952709544290018565288336471119746612857079810868712566841108309099809312478012833087548412943469615000461772620454287532510837373088375788843924262584402323878485843473609365371446730844938478364885076820454855376881784421402585735119991350250875777404726282055175850812034054562982117047006988142345172724202213942777792765427786968156132582515530207583245617332526705055646745529690368844606592489881706632676092557411680633706059464842837528000488257119950468889274409579765484588043951931907187263946495326713065944037422346803862859155328462600700236133586564421603181731756749277203059917749802410945797534657490142264452752175642500665050058262851792680247873085709815930576526424852122344261319622173296381305652739099929446180929985129256321238566697050629654572215623138807153572580931340966381016169389595353061384508555799834124876912496153854518526469138396893317700788371939321266728010761471795527360067181933920335747397137023139605921723589344578842652973301041048588691094702818515055151696503500452962848121856510088171475699537763641674780711555434493717186994891025349741641082688105862675300741787840576427678291111590446557141216165010382938793499990646824215939083181763405316471206399573568174360133819950767179054621853770150904572597087947211914988058172559639320489902044274598062811097284181942515888768831648415942624583338942154628629239744272369124137188322073609356327091318068509509710471853142224700455212495131030702842228868684098157706716596186513515493572784806074574454115124341363465871346128112749568077979187258586078397475412182780106939775904264604638643413846687981358932394434886263349805604732166862668332085830445923665048885955938155088760518538232460072098772304137549942422189737154101298717962015684318806237387267926592503927782874872368717328345790842167686168235011979737855586836676093714851261334904845194190649836141067126552603448032414713925570884066019062344008755260102800780274585468198721779573957013439462215554541598302340261011466560114006696996324276720925853527597247131387309744116906203357983064713172583766117095306794328469530371724556139708187251230991350989078826490384290468470184225028160362543567360444230468101412156707373996422710139819768835564096809925584024189639500965653525264380610484610598739431513255580790537851699409744146722154762324694959293100108231564236657496089477742022649388294306624730376415395582581018532467344401068794036928033748179328943815473605859158022125677209240169740944297252608608173240627216620976329937391503181216909349941482307655341273553835157974778339250246122831680248224846275730485016212673809367236661412535193073569023848602436263816429246543468952493002495268986922324237277714006414382264244812816172498841121254

/-- Seed 8: packed state after the second key-mixing loop (623 steps). -/
def mtS8L2 : Nat := 27824311363325140539377560878038200633585039145261430246717330763925719909737480706228593254387260872318130577221472270829756059521252136846974040387075972790823283779749116123325122931600762874022174240331755291009121858021870210638907544440928354320849355520475542743892993384330177882067675850324891851785640780326031619476000387236344339637373855022039954531618675569863759718214989289659671080450046930689568131027291135077989748093645023217764537015942201370032348186682199787347370153954506911599577597975625461653962004529891748035468581890723211163426276845247471387751840205876918217058487618869229052054786552798624266003331113969104398837047928233181092034779252408572242070616536348351074478790788728756506277833768524255151864486506972927311461996461843164244090634798853518838822291046910445072737904086653511138212584819492126080595024211854817671392704144193719642878505631306961612206622340873841951320468500340394524180192201237739959158122954967510009675029305999820207295897651280599009955980122290631237968548968689883664360624280526145665187287136786089876743829195091723085488711603811638428875114263607927788562201578709315728386360559512026521656600668112794756828243602602151409756605592058335417643920047598634581297984757863199676342110588285608229761283412725070353433698682514490501836276650947060972548778779746609263020067391142352490737363698709027595231897214193841743397318258883300909538097051405927262316795615684665521495909001090633945571456145236491638188437241854517614918679126294177550354435959080084958815303316642329657582507055011216276913610699139040000229631145553086198347955571757106142650009128681685699735792529181154997222274338854601622386598091662227099331559173919047768056308631987725998732026602810715345225447344970393744488454417875235486917292894102938392066508928833209856112706326250863206369423266334837579292478562187376056982798511321315520710599948785797295033480057341062650802187438612482496347627196233468161756391421737450357989874699497030114032576355422102618180244508440370575147055074217554975089698534502574083608808510263242164229947274279976525873653965164123060506266340582806661151570050503918894834841365790306868348304268152661712086429048076552486778333199878794657972758656521783643382093979118193086581808700829844153121596981335880677695547877088249576713774010533131459674408795539670454715916697770241061381378890395638055279687905724656112660825261841543555970540903745919732352066680997902392748837390573962107861961989542288802156144066600153780362751051261391447914348525192426328881823740926564139823854510823289347070326710963349096877886460234510468874252720361402793928317043638427473775303371623366297544443106571485564465121086948670864861826229492466565197099215576532526648492959308220794302647284674907346038529964472682812464870864910363815816222816236072158135818794323058643462084611033656496230172533363130271710733746777907280663511238242194320902256091485183680892972176819872867721764511691960056755273780431514471370363971053359119877129577057217243917187464569938709434248669860806796486256582933731428731185538717473233197527285284242111910287128626455780640011752804497375072116978297869430153232519093051422294202425400761613649564735832032037456799607216285418726037666261944986858088816202995785686273200509791527291792096080335445030165323051749599329673225032358509218598091929853477809198875862686654688479643148431987385073288631282111622322632226945970617461323805348681713373279252522039018770582600696385244747296603702490269422986645444178531097679978346312135741260213183620189558905533850863787569966716613039257808537533633596977235755757839208734446823118810945073933184144503376039209936198896430415582688435464224129542727848230675067631113742154298889503218965530911621541067605339182444320115809397759317882630919600048387649573772340748101559361973979685695562472588294144263645002567207730580741539036740537103156978797727294227387597620717861861497669774150905478327995115078994062562302558826121313014238271137269982156811139717977027878189127715576156074760823810832840241707309344143025604121160011259739273718064040252564518361543112529578332961221882534982721974542706091930676756154912497364342645041102158154316432633487982516644805268279012329028340101036256639295429863817634555227402949451522193942396449933268401601494595999477850342394548296860071280314774329206427044823078869599155714593224319058094478478617542260416879568257519151827757578880941304319980958552581289490581488516932145896489514979338915662238986116710580566253489613789895047748060883303764522704357412316821063607445952645433555852338290033471317443108598425789073372902013922800837124048495810950998622622827984941803591735985588934744062393562681851279454192347279218331406035186388433454375519383208776831736884673302513084670643264455047540976226630161287718716780159545707454882665116125684726947948373569686942293131823452302435241901144129552004318519892317620575587684120531334361866825289293324846308478556022658281078679288540106192604019122209190698801369286531736753740222713271594259135825080735179236117790809416786796448719333187240503145571472921133777902437832360113672219378816063486526600114916310096195408013642568280087225815782337094956669043332220844826447621506620434103565912947168975135801093045475456837433805494744828994185746732277611523427934750645305419253918182881150414087519930479595739351845086489472344533149709508046743074490314092145547956766992833750338252050447204760384935073888040095386231332826459697115617350569417656524805616746728140126338613858477741716469882768499735011031854139905740102796470521684593305603075266960013695649594782684842504198273973534994557485689612362819666078139559159331371332142880915079246692266495546582656422863054774489698418745752198240189892384777266562977252607923985059279596223014083511234186122672250654938758752668405196828840182890351895035751176773607639396459950574559622671557552448413317826681297600029645

/-- Seed 8: packed state after 312 of the 624 twist steps. -/
def mtS8W1 : Nat := 27824311363325140539377560878038200633585039145261430246717330763925719909737480706228593254387260872318130577221472270829756059521252136846974040387075972790823283779749116123325122931600762874022174240331755291009121858021870210638907544440928354320849355520475542743892993384330177882067675850324891851785640780326031619476000387236344339637373855022039954531618675569863759718214989289659671080450046930689568131027291135077989748093645023217764537015942201370032348186682199787347370153954506911599577597975625461653962004529891748035468581890723211163426276845247471387751840205876918217058487618869229052054786552798624266003331113969104398837047928233181092034779252408572242070616536348351074478790788728756506277833768524255151864486506972927311461996461843164244090634798853518838822291046910445072737904086653511138212584819492126080595024211854817671392704144193719642878505631306961612206622340873841951320468500340394524180192201237739959158122954967510009675029305999820207295897651280599009955980122290631237968548968689883664360624280526145665187287136786089876743829195091723085488711603811638428875114263607927788562201578709315728386360559512026521656600668112794756828243602602151409756605592058335417643920047598634581297984757863199676342110588285608229761283412725070353433698682514490501836276650947060972548778779746609263020067391142352490737363698709027595231897214193841743397318258883300909538097051405927262316795615684665521495909001090633945571456145236491638188437241854517614918679126294177550354435959080084958815303316642329657582507055011216276913610699139040000229631145553086198347955571757106142650009128681685699735792529181154997222274338854601622386598091662227099331559173919047768056308631987725998732026602810715345225447344970393744488454417875235486917292894102938392066508928833209856112706326250863206369423266334837579292478562187376056982798511321315520710599948785797295033480057341062650802187438612482496347627196233468161756391421737450357989874699497030114032576355422102618180244508440370575147055074217554975089698534502574083608808510263242164229947274279976525873653965164123060506266340582806661151570050503918894834841365790306868348304268152661712086429048076552486778333199878794657972758656521783643382093979118193086581808700829844153121596981335880677695547877088249576713774010533131459674408795539670454715916697770241061381378890395638055279687905724656112660825261841543555970540903745919732352066680997902392748837390573962107861961989542288802156144066600153780362751051261391447914348525192426328881823740926564139823854510823289347070326710963349096877886460234510468874252720361402793928317043638427473775303371623366297544443106571485564465121086948670864861826229492466565197099215576532526648492959308220794302647284674907346038529964472682812464870864910363815816222816236072158135818794323058643462084611033656496230172533363130271710733746777907280663511238242194320902256091485183680892972176819872867721764511691960056883218385336214024263637509351458427690072583051568867088963091941148686265066856456213606322909313762514510010031473431376351870088062049424675428125820089095863788765815331064145607812047091165059134100579615510476449853735511251935221102036595499652081569226198289924948315840293226485485652433956399811521775438542986701910000862798745391127455949475029045127617033002689968924143382138592675972757661122682776714814340550087620697871738721423266725977519768050622863670565382091332167501771354302298218414242066531581744088027472742118532025623480268421372190753184448051732998642997345972819044776495590331998965953116037015402532702913137026805213031726882710522420577581777886691533545117868652900947508887417796329408245920811946237122531141148545946462429744503332432228181783188162124811829574778160252084899093992924793881179562469098523258952002019103634085662619458513620135506960313140884172882462635845054129869281955885477432043028306930559124343654970830072794650722696220149219966732384320710280185606459692889216669503803056391628223043253119532672178167952344125017582288719449061397837466726609425493488168802800004097728487351338762505000179011428563823398748025388351743145086272465227807186629148336290681662149151580017483702874932054064094512735541524548491735682744304097941751985447717058817553600377831170566730403434308379941318880218183449704353465066880004321710469191643834601606805006820579916323952392362812639304682508957374068654892604907830640158940742557355192981358750990880011954158950269981696217814833412730290213677491119980534006536000122842620545763930905760240465997842187070645887972772699629407411370180848583348622072072456465732308189785977751139646934907914513016133822620275422798873127828998609526328218301718954233260475389593237138472512952337848317449646110510806970984995743902302915940781123344976576812939672100726147918633953396895094603958104686365686318392766832969888098717991561216558118976475616536779980864674909254073490086818094097296645175381495355058812954641865488732123519548976452154482826902507001130009792599261187941254038483551817517731952776126595325632609013662854010598987524517840629499922240908157740676007985163192165762995438890615886080312465935119969405161929368880115041105284165260192120662899606849433120646554803683426765442788218141220101772556816461345573338485035237993552942177912364776620628378996993906852855430415180147017327423900667307740444000558733184231301619333932163002336816017419648717164506746348296074833502556864064628382743902277464159918677589868186248264034507650610037220545181686492849685478921690381312338656191391609537703340709213034156462316443295340873393826785346842799609414658889274232816351179478610014004108228600638321134043029578500056311864198276558198445072468453766371983654396959952834816527009756785927212815174815577423900546288547187525796970763713921768390266598668811048026451522131509369521383066758564027803734856806994895643150016077778738716483199172281065208580001

/-- The packed generator state of `random.seed(8)` after the twist. -/
def mtS8 : Nat := 29743816413478156018411161144997724496004545095161343995443381568400696739100500429040910697125244167967973910988861275149948840438447434805003296993013264975129507807520109271494303316786715877429696377220190348980319788749207084259936992797015430297567616257714351292916704695951840127941954402109684440006494853557742528959006850680157079652595803304839394050638434376364663308131204950055087232056942711070866503025530596545941003979497987357404679688295822072440888852091008261728509418498586613461506372812041244500316356706517466940000621276182804478204292027414068478122924402458060746136950920161520949129418497739828102232146700067762017865140017431996720070338147518218712548603635044592245610347396578214085809744155164262693894418362492209113692055964003047444546405246789893751290379016377937118728484649795585591131059981038186102348515021395773039753743165703983854444686400829485386437862075324259834900400515084594868042804555296501647953831061525746074014290428659361290306708718528035882136175054348126306827364329377088578689533691709040559148799148731032479168412823883140617151156181353603050982502272856463017212128560321715111801560034837839472569497057893190515248391457926844106763812033184747281243435481478564965682831453378628505654068770975967580763533317815326474317673788674130311648908309822626757823171983532698997134094762233717833185465827046423344495240740442181255194754675453022801796625997894274246416740054866763424857280937409727545459663481291953755812435373568931188592866634410487696080848696803634948899036230165805103609939512656845053407706484608276484090150224757229352498607640312344785230396672993143882478368892109238419202925238058605297679117569605644345252438546059431366650027489096013852634608426630422802137038027811557334509836805882479178344568336692383230620059824401832571609568681417062607841784530049164975557358699304532283505764579143375005278897105421912392167481423707405147416513443852642883021361184386881262142704942945850048032758338695720643926703799755214480178177018462220010948270848417757089120432635419472821050978057493961537378939584909351999738648500716943406107390009621571626196679598774191317269500669199679305328545854715519998654281612948082772700122381353466362144229442890063874437279501709173425744613163151164234613835596570465114411737863943361418714423644206372362456368946611413308176060597503483624137695940168859749780965521314202033918492561015863469707185577762609199414390846126707477306628638158430940134255142233311516189318754494408298292254650917051685818762031024361314298293834610017086149167822456563457243248054023123115269857683760449941688884461504892024087618849096558847147011436544357709995403036180507233033747653368913266824289950084285926529031112074781026299521491309298224624915623393977110255634046229968878173743596825585351660961983430480055659293754413931821608401168708196396260499891459499416399337619396667614491377904044013158711015187086908942196322422297913974320723996131422780745837661536259607607891390320315473960953026219125292294362730809127114057527335448671965076369112592343868595990513862616252946489243965813454708983033713433960587426473315005561128257418188647595935294710173473838911777048503818175730420282494669137998063339483409801516903212039872533072114710454923085759729730284901427314655252457313049832320143255376550545479319064560878804217518968811952764925464487153654779416987785052587240860912923119676310835301533488447381566836709652431518822133153586530599389986942340532601666035640379058164372690077088293964358668311098692413382197928583505183131744743854594004543206845584575360573318017167277946254070690003811909286033543414144013237968354575271851318476865303323448402446041838331443513219873176386284557590299313612446528112669245246615066300034287527899542592605186225864114327884392162574097520490384850032634215816152382765158963107796672881214679668618223067355748506279150227967829699125181021032789273759383834543676225494563997244511812852647835602864359908355213563061438465448537273315288434491346944326817357350832627005058430155160186331579137969415692447296533782198965147510922896572296089551640404523337619753863295626621500488274872323097354777629848134530166967082819988867195543954187044609137429042726831793798834764610424735056535879107844695022912097288036798196195508346111741523804545345352991056400221594391548272454639931298724724427284139882976203782420697256395370133478537580495509216813411509821815083795791746005175880768886659565039882193279270509820488016926780216168337790817750622528353912124788787778447873122487034319881042809735188972708568678390121878747545695438654218984361477621261226796697174262265355651020902290834471827615851443047761315120232132700371455361686039077193611292557958786976665002629755644168379133408027467210467393840627205584598200535696851771639928423025264455529572564227797272769614446660329236683962016813758560069659970592480693244742874880581505769286791204507517417117175817705641924995600034121576399197892569041104331802429114348512924177692292609651608862260998686621094200658267150580489713804695392712880445042874512016806218184404421781487039578178541792256311931644143847704931624321448398611562167058608589235332990189228390702720198373166818050755590462753669353756521030017043581845385037783864226999341839113417944708881200274717604893233748672671051878482309359423085821477157229465422695800889404305821783676562686824849795070544474815317447758576925823977428546556083428799932973318635368105609649664185852166581472201437360464986171475372549685240801348338678370389326553006294367633484973056654399073368480436354684052711925954668477822971638715987827788788373496067897131889825123434714075694491195941449168930366360542521207203233727275237790263974853215449712219071124183711053811023406029374213219885174216073752740912064002599939232117672761694803813033183261391036059300910986044813722411655446908409999748973970683995679964632969056643105088226685014542241

/-- Seed 12345: packed state after 208 steps of the first key-mixing loop. -/
def mtS12345U1 : Nat := 62685089405509111925910797243914719854890513935494713084094713797279779630627496305943786046941309007281293105221577504421353501605599255248785149356818580886163074212016138319710181437623915839386196989339984175865611290932895638485827512283879634622589907034847096838980553398268338905605705315464924834076955485269257682765843392777664062904318116756644819538761883164862381873685805923051342196114892111881287659915424456096361326051748180740843339721465950121631833352165428366344241754810081140762710579390137795215443629123183303201044796731629341661542390258966032612552126580439913324626563213547393121217728067632048719897064596438939163041106934301355643192260261867872030533878188557727018817797219012064641958276099544136480610826250078810896212505254064619595899307426216931651016613164877613570296351724055264357110051005104450572173606849938075379012356137114572525910752676385589168436483206759652170097284388598518122222819376116616668668677988651997615236221431416155794821321118852088948452164682783715959922435191327367306488124638818446090532334864386359317233873012285172875896330714873881780586230596002778688422250420590175698633544778262136505069053046737202152515000629854634631225453245996997340762744567896897683212149150732909707719966588817675821630380251456266588599804209831660991462715440400663143017564651072677052296295930367391822676512661642282350234567553218318066651318510488484545671729568971887621684270732981974442582657502555066960418690332945218280990034155505553171409775830458482159957769211244505225186771766058316021949327301666418107251589707938065072144733816368743637495699897181007119363672460040974223449086641663004605507793014252452324150238463715514559124307431648478948480649031081489229583165223570218974125422263886587593014744330199975749832650568652404661542746543584685860761547297457070273167102314576665676644281998277713093924236551494770138725647883566971887853912300960949802636372591951717316415323846182747445131420005722224687602711525724505110953736568981699982016588947035894059736087136235396798804019434387781559696138411966704777989194870090051835909943079457649936020314680876367897457337488804889342331824364904005266943816631681518612047693872607083945336048154993001716858914072302230374294986610531277637599664647525761147514008899238689946802093944865612982597431648203028809043429562401771290925843222821220221381984318518256971016750121270624021542153515130386081256853244444367484914891752438843250797295149886721543902585582757118492217204960123203770309672216674331373413106027454841661967870247822106376003696537006476355273043676224973894002060133928765135363584693312631060562155459381152426642778209514491263275588735458188352331628933634618912177576995916817414488324819680108333628484452298807271017999262374749573133359090629722111402666396222385680310709557844049479865847370371052888681758484468279513921172987571336140289500145715018352119752770038578015899178947425013401300127437407370742417936980607757405410607208376626705322894782663757703548808362869195819947150150865798288136994832911439410269353230208345410503242199606186650417333579047848825834242257112060317620885151293421378661990197161958015730358249113963865616811805417654957899792836277351433146683316643158745577273742588847277405020330699298979666450169324546781433015633218213248018986767013905101885085728066131985273947793365444250280947765884488609302913437528001802423347517836456663978922564542901160075954132077499502061844004777463229898312792357201472450520034421742281215395838957029567457078867297742321364249618062920323524100796395855490398720473188748064226082130624085325443879193454095100721902723688608983702297802922465778395428510531587340343771240068168890882622394112252370643121994567113348850616779414952571984309063927162547038575769391208822294299053225776973195785292510157058775147687493667385905281728614066936870793483631104130486096422866739022254251631022238998824784309871214211336594149372534724829069803734099727032412360375993687104615582784406037602494503139539544238193221103902726871511889462222077337884408841390732185132050466484487306182768701215836402613330425878989496759745633274339941618150544895141086718040736028380699541203560597062269145144615544000186521880210911968780782437366194005386556845972564924483756805261363662183796351721637708799536756163243312236862924109823193201260476403991401067456466906326701697818902751936151127543559006670200951865027281818631330158632749791119688392838881655971172355498106603063240507398328150139124751399401068307245480997768665521717897874408038425737530681177961360439909528843504020015644236402990587061784543704607532860872621137873954576485057003530782654750296256137001136337470052534869627843801594930982642981374077728750617099815139086801928226188824100476980761968224781932049286833750322732423886506400753434195304252559233272089541093929661857128187263022778022898541066017385198245744118816346782185709069045921772229479928832594422451237616319482683608005771530919907023723657171037111676921361220302639172661682775911782921385088205523216096239945588345018771461417405642630347930526285883144034356551834104325936535832020246134874773793967130587175257538505620688665087464587204824066405862643494937292275221626521341118989128348136406852830758055759387337985239463981399437063797383897856661370702972368429469034448471496949295796637278667326067771135081128179533196876052912634167488251358659652139821615632943514269301213330999995823104331733476252083743756901380380944327556174484288506422597458266114111060097766410765730186680666380524939484498361753960094680901961441713666590953891297197158311048106305782995626643900963674862032273027076823357805492122348183869104276517426762464563383192425933746977737892694737320262052729557811425550320916890243350317525202796808945154993620473412290676862935612761760603687669719422296542939028581458954068979714932993890075382312307224915093829979715367899867352654302054615222810730813098

/-- Seed 12345: packed state after 416 steps of the first key-mixing loop. -/
def mtS12345U2 : Nat := 62685089405509111925910797243914719854890513935494713084094713797279779630627496305943786046941309007281293105221577504421353501605599255248785149356818580886163074212016138319710181437623915839386196989339984175865611290932895638485827512283879634622589907034847096838980553398268338905605705315464924834076955485269257682765843392777664062904318116756644819538761883164862381873685805923051342196114892111881287659915424456096361326051748180740843339721465950121631833352165428366344241754810081140762710579390137795215443629123183303201044796731629341661542390258966032612552126580439913324626563213547393121217728067632048719897064596438939163041106934301355643192260261867872030533878188557727018817797219012064641958276099544136480610826250078810896212505254064619595899307426216931651016613164877613570296351724055264357110051005104450572173606849938075379012356137114572525910752676385589168436483206759652170097284388598518122222819376116616668668677988651997615236221431416155794821321118852088948452164682783715959922435191327367306488124638818446090532334864386359317233873012285172875896330714873881780586230596002778688422250420590175698633544778262136505069053046737202152515000629854634631225453245996997340762744567896897683212149150732909707719966588817675821630380251456266588599804209831660991462715440400663143017564651072677052296295930367391822676512661642282350234567553218318066651318510488484545671729568971887621684270732981974442582657502555066960418690332945218280990034155505553171409775830458482159957769211244505225186771766058316021949327301666418107251589707938065072144733816368743637495699897181007119363672460040974223449086641663004605507793014252452324150238463715514559124307431648478948480649031081489229583165223570218974125422263886587593014744330199975749832650568652404661542746543584685860761547297457070273167102314576665676644281998277713093924236551494770138725647883566971887853912300960949802636372591951717316415323846182747445131420005722223938054022454069883661880277363335125789405322848190427625519465620079425786143089595240720462446097923819918430339682447998155011780769470323221519504940209500128598557795068171111857410059408882882566979930272943241224276905479277186788129472621317561547997037416107540430767541741217092930701340455156345108407737604546840124507025392191961336913091936543427865609123355046857223945466549304821380106890895914743066879514247096029390254196280989118133841719965073277711849639980077922155097806335054347216701389955559334924622451330079793309530628415213282846657898298615077919441897259247084658986888414089249939893123451286574863284658637086897243798638383135387412652878287381934634802067994338427711483754233225514267304199291398065569032932935576728584397177107807152263126192998593630226497733301864081200828398728603811855494843999624821000580224274882490773701148898366018613300124285783164982599800736690967888904819291340466960214810257644000948157330640509659507604948527098504957739013384176396168243001970872886418510088419782697437149893408283053467011238017479864687609082035557214348588065632007712774666625744143395091145909955843302475676192218976819776218286486729188184860525835864377486107810936696684221721228421641333737660969240126348558928233847368694385956030207543933012369911575390740679277662941503268856700956957671274845370811612003362273416496243132659500664021820947186839334721245122992747308152881029556889946535552031963983338869241139368886018115767432721606128224956798562809159850631546724188066143136049910128392568714802887796291304704604358277527467514145932062372446481417170118661347056687750358438036778090071502963211548587891372696705258289191589650660378352050441403583075597785772050410706909454059106705583741052566842772655229698630930620155420975203442847618344072400065756689053594118691448563136139146940264693643176932774858920492353510637214987430157663425130936876380386728090906015127889960917969970350839561994822343950005360444270610928078074767327551188930431346136629566447727831906853956106457841655798973829077700987297326727136749626790837684262575312514593315704587937121195763348637955324581902137560768878224368643382731594574436863025316380040516330831476308646965050538272291595793307215336594972025695650044757359024822900328121155203872626901112491725091248299122344820904058289706936567259468348137379973086089794491453128442469753263068508807772707556872323272086827213753740740245699420959467207676442796638642967316780931009271521357323610289655571916783949822645715447770287055855010081815627312059420721994003156241839786506326464586935519658976413074154586574264524924651624166672465392445308309384882817305179294176649292383544491988019833195934061529810442764418408268059680358814538890229693046407317215564928217079310905099842932052604604177813514419206005684620851888151585326445917046895359574579042830552235462202709963427517617790592554590417079818495908215532511887137232055668634133245408110166214623689388605096486214698667805346617960795807953393502114858742875334278086854483652571923844012658752424336305696778631711080435888497457659693148526276605728580353898226606099953014036767740916905254710113080031162570594609829650064366122319868647262075852008975140812367276548703248474826699147328331724191570593429617451759013581162069436846449239093962598324773291828807726439304753989309460043483736080467005773389175358625623856732812516481819280535161323491020771174058222557507431563357339861560246866393938119896316040304481973024974857664300211229280582108052891690024831313147951249161109654157373129463464036972657565425397349304147489188711952276926069635305909624352656102185841630583964070057026831229022656017490700973941635259462559291581868620362881845978422102719658010410507426868399909401838978176302232028325933078640565201060867604150743977401623945231830137153650933964013440329802939542411845575889319965280029241563598601095038513531226249567623489844199315530991813532687204090470773970728431894910634

/-- Seed 12345: packed state after the first key-mixing loop (624 steps). -/
def mtS12345L1 : Nat := 42802204489859766982627423440055318297377900724795353098454866903012474769324400004383536151500799668942992732789905507025778641397262699935403689458338981972610496567116465918890238169087164179776435859191235144137550770358368511422347813174631150786133125954446686607626049046041318540992752671680596929415468461547411087539257590880512692032377373963511725959257468799612243916343071453786100219661699632652501379938468084517078341147163141857599176860011694545575468863989920913360014687298175868877071029972362968640142848891167399698220558545720718153254465078185094529145618961561450242413121214759385634780407574314613139423422381038229663991198915163209957478791644792334721747058992092641466707659345246317762590328839125009966064798219469246917753381798948499069764357999721134429259276979125919047793501152791195463779574763734608690351586230297832874520449303854786488175762013826557214720133567727614137197567450442555669643325980533811148088454456515208715743197402087371303633293891422807075886633424292528938842776046095111507457939892593783772928263445082886780344573423276634988309382172345464178626009886809996642381302671490117291525028721800657119015803356007414083510447422669560962647607814469623208833300647212047369743053962033576712564746387388479944753364092827306750042532564312331491746342512841415272675510213378257076284530623899310336018925782668095699595013385236495910229253312834741963849297334229101280098442459162703176749107738244948470495512155981709475535285042934277793044733799779090293823223136708168852136101725197585657320054748288984144618435475711307132462495012358967454314897353358957769402003421475824297514928181340608993900964873875910078516569752755495705901875525398274707934708192981851841493671910664357380821842203331460433766141659955651433286888748629461626701730158255791749989173582992783171404238070501984571442826595729231917699432210580652124826342447600187498781423638014361855837779862142729915056794811590716591006406293431010926368992361618306709962029297800678768223837708048543139135509239227348096762391693838778692071348229370895321808391641246731431670534232080079278197447608620962643711373312038385380419380794097694544871675331179189444467772513926106558605689447872850774330226643754895711038302089712459395827877211332169427634965563496627013512532443513970302509876881204919109984342706233529842180968933442794476605777684544817832249072936827373853167772758088612030197724794462978764695330654454908327942693098655354255874192333053233998330440272598101635529127597339640741380688123776773110871373151737712919092631615736475860418749439681413510785556503793826758941789700818063699468317221435267233806843748339943165327369815902399974009830520026913815692679322822817611768209291111129451963453519040714760596070945670941188843892603376132512975687886521025443961344568212326224456911609040988382713173767010708675027119641348439323868548854605188250033597040897227108315693408071945147117388521216269045515522843601163675930928088589979768902261477610535916992896476195468654150634344188288790545945526452616970975668267487726671903114840002722383889440679214989596186151330651363618458172606550030206729098066596716046404397539715944214289642221140709330126729141477647170953970769177883256321284565658102170592531150129571726277165622047679199041511501769793706429364347708298454887217174152123793172264758291037506648751407410882001782285036645860819101086257438378793140293460895685334424297318000690538348177974027505180661759329615647841835462947336013274494936892751483793123095061252111972571943150945627719034033556406438486070401286611944762099992372691632324287542881318795479822639569995135947365418035122064225467370804825148209986688673200382149915341092908100268839722074496738252611993315460627804820877703160140797301736235672577579145402364388981489808597302355616981173624492637403622093451060148231360339701174297393342604127454050806728532035863484111493416297980109790206033593688956415910557552638449868732898353005084805044296850107897178849903863489938294792864342993484375757013225271373089926224816645413369939208793062583394501046861545844348954417105500910269043673922083892127139730206735818065850769648647352368098024104076399909358053225045748409918524381536387951642950642099371602626663760405691590451474068069725185098079853920438103741407793310717230026435195048088471440837208066932477217529129148677424475197019048861894354620044036076168772527393382772638982424082203738143005260695954184859739212584784662140925324016414518963236276563749477438855851569076552318530723582284841565380164218285822951718884447179200717388306670142317369238434030244095636970335939163360632216842477312610430200738570389079909607617555705823453677170771087076410153451451430207015904494463563602886915643036100719621677726364601027802857894705544048459180890818827889244485124445385422027362358828966200106314337050738523832714577080830167673961974389532056698923522018555908408326383626614584678127232911621940243913217876466302831944521681528618023952946911307192741756955938768394185156300080522274053867291505837309856986942976963833687528728591024245085275045452764634328572672524239348662749942552883812901858475531017725791918966805841631081210014309109040635063460149843042356287244943371454515208858372505850947589540578001832880944729255099517413111262951926140416405140828961330657299833140284900795476186373112576171313233721044115554839539567490633414641739132466912119901198451592326362617346903838652033007149507386303341410670153248061310396492816229481824162371552130256161715359394025215598462977780726870825733598783294799469858917518949395775030050472293198211060679093684236127079734185019292080950246378767761726319101932698739958104880871582445857951380614085559942810809624871158315888964652457443056229539447035818519238252789744522221765583028380790851647589854660964512781239776215699923738118392797744421432870740039651810570205349393626936449970870953579850929188999630155456315

/-- Seed 12345: packed state after 208 steps of the second key-mixing loop. -/
def mtS12345V1 : Nat := 42802204489859766982627423440055318297377900724795353098454866903012474769324400004383536151500799668942992732789905507025778641397262699935403689458338981972610496567116465918890238169087164179776435859191235144137550770358368511422347813174631150786133125954446686607626049046041318540992752671680596929415468461547411087539257590880512692032377373963511725959257468799612243916343071453786100219661699632652501379938468084517078341147163141857599176860011694545575468863989920913360014687298175868877071029972362968640142848891167399698220558545720718153254465078185094529145618961561450242413121214759385634780407574314613139423422381038229663991198915163209957478791644792334721747058992092641466707659345246317762590328839125009966064798219469246917753381798948499069764357999721134429259276979125919047793501152791195463779574763734608690351586230297832874520449303854786488175762013826557214720133567727614137197567450442555669643325980533811148088454456515208715743197402087371303633293891422807075886633424292528938842776046095111507457939892593783772928263445082886780344573423276634988309382172345464178626009886809996642381302671490117291525028721800657119015803356007414083510447422669560962647607814469623208833300647212047369743053962033576712564746387388479944753364092827306750042532564312331491746342512841415272675510213378257076284530623899310336018925782668095699595013385236495910229253312834741963849297334229101280098442459162703176749107738244948470495512155981709475535285042934277793044733799779090293823223136708168852136101725197585657320054748288984144618435475711307132462495012358967454314897353358957769402003421475824297514928181340608993900964873875910078516569752755495705901875525398274707934708192981851841493671910664357380821842203331460433766141659955651433286888748629461626701730158255791749989173582992783171404238070501984571442826595729231917699432210580652124826342447600187498781423638014361855837779862142729915056794811590716591006406293431010926368992361618306709962029297800678768223837708048543139135509239227348096762391693838778692071348229370895321808391641246731431670534232080079278197447608620962643711373312038385380419380794097694544871675331179189444467772513926106558605689447872850774330226643754895711038302089712459395827877211332169427634965563496627013512532443513970302509876881204919109984342706233529842180968933442794476605777684544817832249072936827373853167772758088612030197724794462978764695330654454908327942693098655354255874192333053233998330440272598101635529127597339640741380688123776773110871373151737712919092631615736475860418749439681413510785556503793826758941789700818063699468317221435267233806843748339943165327369815902399974009830520026913815692679322822817611768209291111129451963453519040714760596070945670941188843892603376132512975687886521025443961344568212326224456911609040988382713173767010708675027119641348439323868548854605188250033597040897227108315693408071945147117388521216269045515522843601163675930928088589979768902261477610535916992896476195468654150634344188288790545945526452616970975668267487726671903114840002722383889440679214989596186151330651363618458172606550030206729098066596716046404397539715944214289642221140709330126729141477647170953970769177883256321284565658102170592531150129571726277165622047679199041511501769793706429364347708298454887217174152123793172264758291037506648751407410882001782285036645860819101086257438378793140293460895685334424297318000690538348177974027505180661759329615647841835462947336013274494936892751483793123095061252111972571943150945627719034033556406438486070401286611944762099992372691632324287542881318795479822639569995135947365418035122064225467370804825148209986688673200382149915341092908100268839722074496738252611993315460627804820877703160140797301736235672577579145402364388981489808597302355616981173624492637403622093451060148231360339701174297393342604127454050806728532035863484111493416297980109790206033593688950306876428752598902311801286115604173800732916796388983238120431667963810449645100021106334428872541837916695671181788023109908374825699347852310132116682438974422785128467493465621317336646377333361799880881407280130145891913002315735922183553891481740780622232586750544928237893252079333265976820040622549047720596353958244974768944887190712389294413257861687572193844855171144438413372442373319031968712276044635552464076398194988143348717124082413152448330166009604340558045258928483055996167234309674322986646630390788192297175541823758151024313274784155848499098706767773641784620382527095200861092462192079306503883865944876512950311470942761994952469986189062253201759496587277437414776306165084024134564277108494434396527333230448530342532095842276529099184813358331210915169258731033597243905257938745922187430873611804504465592162998700733666211224832978186990251925661638439779940347347473363293773392627662703672152406464371589291217563292181879067518637505690112725842130413771624073173103082907371538165045490078616415508594979870355437129346912511430563809259530807267653069911168474232193146911296408062593874002482419002852528839435186365340946764079833438763722001030405176277287338058632380181872724938062424388801676471161688581135603161886519864899776974835805106056526326577081884023948436482215740310217111782817533675675534479307359813625030618737882202336221515056229692293050936067722878291155424398378899524255538907892556657770435562679784078377573544303505483022331448268372582811651277119355667074090162228697603842926703361257126828283708926953434383311517528306116172502396235401436476260215863659027031950911993419206600811804282993875709371029079356672636725978547563495734359977179474382322125578071256219054173448332795661190559848322476897858246395412954368505469204733086626042883823281603530445854272054511742771358555274142312805573309626388190676209478612231245235622726347012389116081834961796069615323852516321198706802305358496405142521861187934224079048568455169936115795533627

/-- Seed 12345: packed state after 416 steps of the second key-mixing loop. -/
def mtS12345V2 : Nat := 42802204489859766982627423440055318297377900724795353098454866903012474769324400004383536151500799668942992732789905507025778641397262699935403689458338981972610496567116465918890238169087164179776435859191235144137550770358368511422347813174631150786133125954446686607626049046041318540992752671680596929415468461547411087539257590880512692032377373963511725959257468799612243916343071453786100219661699632652501379938468084517078341147163141857599176860011694545575468863989920913360014687298175868877071029972362968640142848891167399698220558545720718153254465078185094529145618961561450242413121214759385634780407574314613139423422381038229663991198915163209957478791644792334721747058992092641466707659345246317762590328839125009966064798219469246917753381798948499069764357999721134429259276979125919047793501152791195463779574763734608690351586230297832874520449303854786488175762013826557214720133567727614137197567450442555669643325980533811148088454456515208715743197402087371303633293891422807075886633424292528938842776046095111507457939892593783772928263445082886780344573423276634988309382172345464178626009886809996642381302671490117291525028721800657119015803356007414083510447422669560962647607814469623208833300647212047369743053962033576712564746387388479944753364092827306750042532564312331491746342512841415272675510213378257076284530623899310336018925782668095699595013385236495910229253312834741963849297334229101280098442459162703176749107738244948470495512155981709475535285042934277793044733799779090293823223136708168852136101725197585657320054748288984144618435475711307132462495012358967454314897353358957769402003421475824297514928181340608993900964873875910078516569752755495705901875525398274707934708192981851841493671910664357380821842203331460433766141659955651433286888748629461626701730158255791749989173582992783171404238070501984571442826595729231917699432210580652124826342447600187498781423638014361855837779862142729915056794811590716591006404961658051469989784400943812042419177693059944733411554063060440903897383862985822732849673568315590256279247030316014038298419793892317947132368804215607857033382642561313359456236947861118134959550118031169947136736443960319886301944152403411412486647249243417907135991298832303864608007269435267627018515885344992604623742067225878199879688518269807348162049100194634036394230686364248198358964900480375617492920476836243624595895774743363204606503395258606577284551009249962651145005170650170439915102491768865886013239342677078108255918134357220371846217147294904212189034416037880240508690861814026413343487409747646698228660440868682680795247183157801947083134468393461586729422847729349611957612193750676831133991965654574850642677720515664367112330866757033406256664104337100053741466522924215725057768001045591775500320279890602628448345119299631408148395032082026588186720393194604976760619758881567605836629087961688748388040940876267434906457950090418821745491813426538688242231111810507303226500600353555606462697534761865954680129972186982654690074074781745110370670575971095709479487274245548832725725998783433105407246246549537452725400248537081666088365589636068849989925552611768032945337343450243175407551699167605576091434228543325333915649707453658823952449300041829254078239514832061621479820688769578261065161829415534551741581386172261506423577566998249278086526372649479733555121914865087814487581964572116166788733311662211296648375923739980483925725164863363283422671886494510077444343991606494378676717461543913904841077235116435232087169760896717817020802595665066463358975986048507247958800650034137592292857618742571833316887142463033037935558334621280836407513002883832234545937366532524717819882448713072617655427836192319393436703410394081736230835815766078221912590360591214011198381883290791412230736409063164582830603226712485425733739714509777909964903783591874435594092808635664257474844429728399348338018378328136321862910599346050860377964079667446373890070102653950171861736599969447104239541605029755866585589998402657241229840689949690121309201172980139304665514869596224971815077432842317952869286318623782468576130976869276080792784475699458261481312210034141787644038461620871267738872115473578295410036840386376420692540664148725741405219367724841331454161664686278958388178791796310653287501780209078807504324464220105384153393263841401795994148123653631693732295787933998556441395384321951856517650782092667554798084153362514412365134470275739753138987774808298297025920611852942274145849597637231513434440486348947676237695742568541416237143626162662830303775051613018580123095512693737146914592646639653156816982305366148679438984144101065455013052921523670031881827558126715558531186984327939091619277384759040740006640328406049301919574155219940553962734843255660545125110125763817058357739376610046680772675100366408395188962856606441965453703112364140152670007481546540455715054470280813332449254527280189888939814296215477070585709228182397245927586855597172912034667099287302054072433222325791994052743807399997122669703209831778927774564274809679899345401381064115967440527479496694660522057980952707812925268068361965829168267801258667776468891593452654040925734428264830150718350233165266443125908627678727759606641644958742627015797255573536430505162514274591075687151696469089704756427046325361808470293193623396375431442881971997869673021654524477938068149162999632351894620256870768522242007378083908825934050004702763602505261204031922566917997679158254118343650586440013502256908763153182449336887794345070817115052938990604315042804142747355910312238015178221434267237061617547571473775699862607264107171310446239444289240238847569337311585144430646134271205527612085527154232671408361369042748432051292021601376534577597594212659688152016725745317533083466367719620402629832965212079280742871094673525690690850831329266382099930062466710495710368199082133310406414203992397892279672811243401705586530665111214260531927587643026110075370243252286153281019707

/-- Seed 12345: packed state after the second key-mixing loop (623 steps). -/
def mtS12345L2 : Nat := 5146247279783878474601875282406180093361269714858545824720794153097889974366455886575913974072104761315218012577279141528358058703102109198317337496030381261797753107209789100114300058816486000393702600212171220626941923384958932166265168686148085229315555812298090753285885912338266292541373421597152440599978486262532019132956072073683166273534903443514988668918970473970261294209315712855688124562327773457385595406988610888354587979642030971905920566946859590613653679296158282711670356999755102247562725563229265282995373745662184386333207831535049483658371279521574286056991731965694672628135705653280403147386467672385056494632274564970337936124250768151250177002634801805677022954691629426309213356389191126846519931347930249376561471097013780267179309673257687457403744426825303062344450898689477747933622853630227393526848359047628365994416764638372225242122580962588116918797319494928723683700789009322681240184297479525213560090504758649222330821218466962740934724728743449860131031014628123090735068791770531925961452765259807753916536548739089719100330353348027765538523627534601713452679285549680709603679367270683626801000815573458611001844116836214145161087676289993047660589113993347686348493706344216064579308478534519299227043111479818612062510858822898365996495805790176099871263474654748493965940668560759101802377148757185907162579559944964403498901281882377623238765839107976581672981334049713344203709344613315055722460187966845148078065986686749191139195979936922987944837791248623092097210176740305593732097190288400481351431671858478426925122388166805347703543306151420266167385958601927591156419755926751781001675641344222106688875439802610176839145218474191005133484450347413707989316629361495628493734882764014505556785693764057811088215976064947124082098624945152083620732597740050392835920802084831137377223499280957105265654002162283413485540891155721080700283695996516860176782511709998097836205026178010881100714054918163542798407743976354873267269711635013430294812854391759793663921390361842509127553939500615919165151546416239278970208515486473750846153674617581079335924934751432486249491485760527910805220805301174744021601095475544301744056097747210698284585033310876862445680476038688999246759794611083351582705681855015466714170710747600919357075046461511029902267801590278481182084865122350481363535517058968186647173353604113670964698898166368358807295377882220917165907666399101673710741420600700404555263809602175150389193385284523199218862441116630705622021672982635868346312630991653492281949950942868929697198767320068836608556425217863658591651215548915260869956059825507543217669072920162756792379104945825699729813564378894314617346260202043463464257818198540529785695326557576908312490361327693976420474761746847412878116578742327320979684031749788088845364739272637488880683199038736173503083110261533429848439628868385966663094074084363416368229115178561754095399363373453162845321753673142570610583308715318527874714870644878639114080325155783874108862799135315427971065451220552303330575804442211119741038691194496363646063379293643508735122718734256213897567060014853782889410152501235318891309512630298531109170012007528492956809464151735372655536186229709077057533087425164234901940660863499960573626012981699140130484707548146492868265186562180238717853638397057983907105921753085994262057169016262573848345336123866711664258521438728526290977491604462292571432703980789593546198404384317627533518467699248964227441989794655828109313121672775043109008287963934844864408343615260527994555766640088082999325271647738202792027599565361199524964654386191556811561149395943878362000116847242834342364903834357795157077228252168504666999567009564017814864212906312589397948584519444238501884260858514106374916838849866416475215687787381050209910028747429695936586781367004558927046832164475865846629516253801303118337288189061417772858029923143808885961317505159142193894612262717540511787818825166267618405577937383968536179510423579744720317630912697183530363753124226566463198492660880934030272875380364866266751978737843524036350796418070323442989545850807964335734108443355094614744379265386817146070678342728851811980366196043508027742004146583961202176586772356857111665738484056945875330388870789453982650502563277937336671246736153432337478850025853691881303264781432599287651203517891239133416599388915339042890412046057884631369613422558577506981058150351720267141466412765073576155299659566493333756549879633561324105729581461391795274557065232171451975873577700524548605965513314428132976901455145399568223805213678471166865649640672747950845324602475186721190038418082414673512669022710148045518510474132503496796305206807454500587005338817668368371509818958926938469612609518301350167940217081073453824478822759042232168007128940953395747167289363496177393410339004184705020707813012207922694495776080337943462272456831039894575999238023257286374958192652464591888866576160407834085101224794449813469367978049444896384091213865417245090000354104362342576269354038256933923903266029140513657286247484504251590966788284836501723836501812934409580231224085052174895080822547614362999250582643373322021902846979338672131265914512942445136328213143309770289052275566028903321394525796105600769932856691135215413121943306712855458293389456812878417888728809392619155805547127040104683260189480577187876933066679740730353953486107926955922252136650991473663020057944239413711774638328439314681713739823351057741144058970921359401390316004490074543377890456446031680000406015741440457077527965580949880608203034828890799086483521708489575642899085207128645317092636385051743702612919365884530842606871374130644868883179177161908005536144193709816154830847231515767160858920853880693951705932965512604967073296413676503316221021691147543826279629363761302515571773688630812554859855939264173303572270609367507923188236493930416036001951860448450002332699013312916473448097522270123457384094679579520440492475901555726258035634827787627885911034703

/-- Seed 12345: packed state after 312 of the 624 twist steps. -/
def mtS12345W1 : Nat := 5146247279783878474601875282406180093361269714858545824720794153097889974366455886575913974072104761315218012577279141528358058703102109198317337496030381261797753107209789100114300058816486000393702600212171220626941923384958932166265168686148085229315555812298090753285885912338266292541373421597152440599978486262532019132956072073683166273534903443514988668918970473970261294209315712855688124562327773457385595406988610888354587979642030971905920566946859590613653679296158282711670356999755102247562725563229265282995373745662184386333207831535049483658371279521574286056991731965694672628135705653280403147386467672385056494632274564970337936124250768151250177002634801805677022954691629426309213356389191126846519931347930249376561471097013780267179309673257687457403744426825303062344450898689477747933622853630227393526848359047628365994416764638372225242122580962588116918797319494928723683700789009322681240184297479525213560090504758649222330821218466962740934724728743449860131031014628123090735068791770531925961452765259807753916536548739089719100330353348027765538523627534601713452679285549680709603679367270683626801000815573458611001844116836214145161087676289993047660589113993347686348493706344216064579308478534519299227043111479818612062510858822898365996495805790176099871263474654748493965940668560759101802377148757185907162579559944964403498901281882377623238765839107976581672981334049713344203709344613315055722460187966845148078065986686749191139195979936922987944837791248623092097210176740305593732097190288400481351431671858478426925122388166805347703543306151420266167385958601927591156419755926751781001675641344222106688875439802610176839145218474191005133484450347413707989316629361495628493734882764014505556785693764057811088215976064947124082098624945152083620732597740050392835920802084831137377223499280957105265654002162283413485540891155721080700283695996516860176782511709998097836205026178010881100714054918163542798407743976354873267269711635013430294812854391759793663921390361842509127553939500615919165151546416239278970208515486473750846153674617581079335924934751432486249491485760527910805220805301174744021601095475544301744056097747210698284585033310876862445680476038688999246759794611083351582705681855015466714170710747600919357075046461511029902267801590278481182084865122350481363535517058968186647173353604113670964698898166368358807295377882220917165907666399101673710741420600700404555263809602175150389193385284523199218862441116630705622021672982635868346312630991653492281949950942868929697198767320068836608556425217863658591651215548915260869956059825507543217669072920162756792379104945825699729813564378894314617346260202043463464257818198540529785695326557576908312490361327693976420474761746847412878116578742327320979684031749788088845364739272637488880683199038736173503083110261533429848439628868385966663094074084363416368229115178561754095399363373453162845321753673142570610583308715318527874714870644878639114080325155783874164160766555034326049344512123213575391146648275643447117288173969632084898769963348889307489807373535832889493295109299018299936344226721727458231931118486034128318882350849073504627080883367243848020007858730334361376637912786521049976705315692728209437119905261279480453083267914792032575069198730365956292844649694575101687221867116073882402963397932977666930856542607396113383899313154714691497979975101308953442208897739880410682933353068194435556991166621072511301066308571163848613939682762559745356001149721635087940032154162084434114696559933039949135377901306226111125921339109791546145814093502282588391149403227665038953296325934672686718616569071445566857849535686377444317280815844539257219300928036791187601129924160227645876825882644766793774924811213573639104481365057034106585171978297648256986659197661750718567958231250576562877476916014984835823058085364430934731154350967250279911282057035704535466275857185152950174649555904417804933057457522157552359910501709033781467853885963251742901114924514686124093810461461526439643051827252807937551355975351915115763136691119708728113545486799868193234813047580720611828045075014746776199769732406996144487071030155089226556706932798767887919961485747371424619080771667522318210709521930369511993153620890910115941403195550383864399810860011554986852353997152186859822186645906886625822397617729146676612975631688745912708868969888304924344646261516605029708418917625096814252523227342205295220889776091846373430688978290095665805429994102118483291579838804492716024934549492472963401097351773666716790958216214044183927391667856216697941069118810879569654008031156861025322163001585962237348350808621477863362548002832551924886440950733678361761211107404612684641806915859078608565287605864934004623363486853945965167081232203169901502171100286495911521939880554336447042079636243214260718424617406210635883810028377002553420468911248975521470855697417847818595547722334546985189141250949128251090425801430071755333818293792339857254562726683322133834438730175893721691521693432524050251424622555742156926308778159336343793969025766427140533579683988146111882425182423786753171570228729888795934901897575241251231453526388685040968069777857029918160265721611632590828358109041185688648459810784667290481858873131677073444617638586886181793920378864810137454299539287385527896052935729568357470265077900013275022498756075243462965629025687618584397455088183835989566207957302261494716904135911094573364381096116348162602890892379016086691559268029790087365075609021904586634320833225724158501807741476530377373203727608675850163341695719579102177068447056142092950188038946794946023894728866960926318346818972405587191369492535472815997335490188796563674808235166512912350944820288992644646026551574565040999300912083343220629772283896036847862581303100183676684810367196690539493808674400927980866723343513182478548844415674147232766261576393482494751730239350946380376640453111444428981583275210257821386753689137381719754952003787059424

/-- The packed generator state of `random.seed(12345)` after the twist. -/
def mtS12345 : Nat := 4949362939053971210154450415297727632648758898075275761074398884361071581391729860132955277552988636504425896327375188104355082369998118936949983886206396784402893075210785757395171748428596112088975059175717417464344087641866461517130338624455089175263233483316716010923762934773162125925506474262991583319205083994811972816783961246550656572912964534097701743772138168176267065845828673030513223680013998171067643465087218704280463732019144364388308402992535918766738652036440053492225850206529353589988275440250283402519054009491180205435668421528854015319126693253393414799068573798614451834412128673311342926775724740858326343067307330334225948327034093945778469976339427974210851439141657505464397049983143768229977022047341288970034964132609665035978471845308675190234859430131625979902761999460072472223121709119351042167872415577343457919555154296712761805327404287037445929247073487571749696798391920926444338951607847071735741169665405784873296473424390986154682930378753236248715770047790710258212278876743181030871187431257904259872525903700228860852444222565739798287229157665560880406933372943393498381937221119353749562802763915276582411101671912492469291708571873067736919112805710868332613147932938354742400049033698955587209768268139497379447348199188996215969269325934015250780974399513826510269006239339358381748412609647975448757618434212608543746077209874468131419246692677277558488950228328769910148501098310066255201415374109352733860201841010504795365328218168028918666404730134860127699911408380555241398966323611334822003568843948698813371733640233845397849559890591205702740295502994326925515132394704781642265444569137286734058312820961126630445386096871619784362022444143615136677273441665638143914440653604419493073600630450935810616588492919506449564751649271463930307804186646740738544750935658931802934939857517669480897717076373014454244066477356234543270582436650527042467240438715289456566285023767374948379395951447205439963275999606572088793986338103395456104391218963318178208298109501772434638273793465991821429207916744550089641919611279369292834580327078889244979115355682104412558846455189194405842293305493198798559518670130770252373003632914094192255355627695107948493096057908592897859281603893450302872267409099882006200903859504510380392357216783480723629624238552269497966146123101260342494842929310800621410016313623188518182181965488960519995691068038040187990678473555769197996473443667478353634738025305793146925974517435235215315991354386697882106649991027388710891487293086836855105659912038443531028412064196454653263765243605315864873137769603823582702963503335478014986320513608495144363540110625719094372107785438635558212062230038961091943825914886186348422591064436053706103182923344615658180899058136846536334496978980624982708732503032302202795612245253238970947131996450532259128856662360692047946340701866241202704670930245259508037293698985808321764881708008974626298653392619797333604979519089270539020351104060493076415020689867288201297400114209751536484403003122916184227095647624463351694579072434640690929590004427123658177829293278589799630041566154493416556683728066222887700742993346373933387344592852317483877679967439825098909599784150066344809676024943457056353596171600613665653888986274522992390562169881530335942183955798584618918180055697204005081911387723405493283267456433427063462274214115903676802931929512084258995093260600430241684563225685191414578135276175820364683103578091742042776755176180453944446690924059176716406119228320735661813721459086355438583816138736017952783793440936272047094947413517643013685709965816700791650280097275966644536528966455119104271313667626304662998197004944420572678801004060187653573192973288851031128936582707930529720883504032954831618821310016884950532967268409823041039065656704580404224366072250964016099726793782608904577649325610163735833105455905677622409191373773025614964618777200453920992754731031062983691989282249884218408038494243464748788692880995622695393074384756398652745913456116360228963230247486825421813535920421207725062947851520217526455531956351101960182143043093740599744268646895688523240891944441006857199829827875429280161922347036857747364056538946747299076283471115050853435943040629766912797118147112294064928185936912397913401053102935795844475683119885326392715074044748651933857676013889761728796229420456366607063176835884198771437947741167012932670199163148569467586615539223286657029521385197686118573853424220426921675035265549420897375321853157277181935482734294237900512144822142178606770282506400417728939621750352105195360256020251523823263602083149270782527001329694210376326331379514973568125054738940268248000998646556435999320331105640665677237958662231938426375321971375961068565626053326992118217168508348976289267858342173821119509124139086636468990029718704597081948461459293969678135366696544918940902617464862915938980790692394817586481905385750871453206140504293542779676433452678024932604925667439009616446670617056257877187694412482330798836829339485137574641451497786742527008403756199240575991412461503913566687871467980456132255908795833253985327274072903674376098856281034892362704001706377434946261702104770551018409725733214222961430253451177024254710474262927276767882610532212804493558548990150012868765252438452746451455694616360423949806718785697685342766576972196762741845078328762919554271996827749245471834889851398436011901697978127278179978564305781204161410236454160445424210897340054992867018573711496927893756252237065530377873761270717814021885089559970799823907437974185324584715202651284481898520065569005263429180070484222165344422342661036197801283257116433431293590782153470890019660187804681308849918358925793991353234644847258108244297614259898092707000261270088094509711921536626353341892276080345261432762534342600226602252024834369321298503022361520122683603034686141932553446736722252608984844698906032859986207309525745482581504132557038466208600002815673815632779983234309297710283537315101831392

set_option maxRecDepth 1000000

theorem keyReorderEntries_keys_eq {l m : List (String × J)}
    (h : KeyReorderEntries l m) : l.map Prod.fst = m.map Prod.fst := by
  match h with
  | .nil => rfl
  | .cons _ t => simp [keyReorderEntries_keys_eq t]

/-- Two permuted entry lists with duplicate-free keys sort to the same list. -/
theorem insertionSort_eq_of_perm {l1 l2 : List (String × J)}
    (hp : l1.Perm l2) (hn : (l1.map Prod.fst).Nodup) :
    List.insertionSort keyle l1 = List.insertionSort keyle l2 := by
  have p1 := List.perm_insertionSort keyle l1
  have p2 := List.perm_insertionSort keyle l2
  have hperm : (List.insertionSort keyle l1).Perm (List.insertionSort keyle l2) :=
    (p1.trans hp).trans p2.symm
  have hs1 : List.Sorted keyle (List.insertionSort keyle l1) :=
    List.sorted_insertionSort keyle l1
  have hs2 : List.Sorted keyle (List.insertionSort keyle l2) :=
    List.sorted_insertionSort keyle l2
  have hn1 : ((List.insertionSort keyle l1).map Prod.fst).Nodup :=
    ((p1.map Prod.fst).nodup_iff).mpr hn
  have hn2 : ((List.insertionSort keyle l2).map Prod.fst).Nodup :=
    ((p2.map Prod.fst).nodup_iff).mpr (((hp.map Prod.fst).nodup_iff).mp hn)
  have strict : ∀ (s : List (String × J)), List.Sorted keyle s →
      ((s.map Prod.fst).Nodup) → List.Sorted keylt s := by
    intro s hs hnd
    have hne : s.Pairwise (fun p q : String × J => p.1 ≠ q.1) :=
      (List.pairwise_map).mp hnd
    exact (hs.and hne).imp (fun h => lt_of_le_of_ne h.1 h.2)
  exact List.eq_of_perm_of_sorted hperm (strict _ hs1 hn1) (strict _ hs2 hn2)

theorem canon_arr (l : List J) : canon (J.arr l) = J.arr (l.map canon) := by
  rw [canon, List.attach_map_val l canon]

theorem canon_obj (l : List (String × J)) : canon (J.obj l) =
    J.obj (List.insertionSort keyle (l.map (fun p => (p.1, canon p.2)))) := by
  rw [canon, List.attach_map_val l (fun p => (p.1, canon p.2))]

mutual
theorem canon_eq_of_keyReorder {c c' : J} (h : KeyReorder c c')
    (hn : NodupKeysJ c) : canon c = canon c' := by
  match h with
  | .null => rfl
  | .bool b => rfl
  | .num q => rfl
  | .str s => rfl
  | @KeyReorder.arr xs ys hl =>
    rw [canon_arr, canon_arr]
    have hmem : ∀ x ∈ xs, NodupKeysJ x := by
      cases hn with
      | arr h => exact h
    exact congrArg J.arr (canonList_eq_of_keyReorder hl hmem)
  | @KeyReorder.obj l m l' he hperm =>
    rw [canon_obj, canon_obj]
    have hkeys : (l.map Prod.fst).Nodup := by
      cases hn with
      | obj h1 _ => exact h1
    have hvals : ∀ p ∈ l, NodupKeysJ p.2 := by
      cases hn with
      | obj _ h2 => exact h2
    have h1 : l.map (fun p => (p.1, canon p.2)) = m.map (fun p => (p.1, canon p.2)) :=
      canonEntries_eq_of_keyReorder he hvals
    have hmkeys : ((m.map (fun p => (p.1, canon p.2))).map Prod.fst).Nodup := by
      have : (m.map (fun p => (p.1, canon p.2))).map Prod.fst = m.map Prod.fst := by
        simp
      rw [this, ← keyReorderEntries_keys_eq he]
      exact hkeys
    have h2 : List.insertionSort keyle (m.map (fun p => (p.1, canon p.2))) =
        List.insertionSort keyle (l'.map (fun p => (p.1, canon p.2))) := by
      refine insertionSort_eq_of_perm (hperm.map _) ?_
      exact hmkeys
    rw [h1, h2]

theorem canonList_eq_of_keyReorder {xs ys : List J} (h : KeyReorderList xs ys)
    (hn : ∀ x ∈ xs, NodupKeysJ x) : xs.map canon = ys.map canon := by
  match h with
  | .nil => rfl
  | .cons hx ht =>
    simp only [List.map_cons]
    rw [canon_eq_of_keyReorder hx (hn _ (by simp)),
      canonList_eq_of_keyReorder ht (fun x hx => hn x (by simp [hx]))]

theorem canonEntries_eq_of_keyReorder {l m : List (String × J)}
    (h : KeyReorderEntries l m) (hn : ∀ p ∈ l, NodupKeysJ p.2) :
    l.map (fun p => (p.1, canon p.2)) = m.map (fun p => (p.1, canon p.2)) := by
  match h with
  | .nil => rfl
  | @KeyReorderEntries.cons k v v' t t' hv ht =>
    simp only [List.map_cons]
    rw [canon_eq_of_keyReorder hv (hn (k, v) (by simp)),
      canonEntries_eq_of_keyReorder ht (fun p hp => hn p (by simp [hp]))]
end

/-- C1: for every JSON-representable nested configuration `c`
(mapping keys duplicate-free, as Python dicts guarantee) and every reordering
`c'` of `c`'s mapping keys at any nesting depth, the fingerprint function
returns the same identity string. -/
theorem C1_fingerprint_key_order_invariant (digest : String → String) {c c' : J}
    (h : KeyReorder c c') (hn : NodupKeysJ c) :
    filename_friendly_hash digest c = filename_friendly_hash digest c' := by
  unfold filename_friendly_hash
  rw [canon_eq_of_keyReorder h hn]

/-- Witness for C1 at the stability test's nested configuration. -/
theorem C1_fingerprint_key_order_invariant_witness :
    KeyReorder c1Example c1Example' ∧ NodupKeysJ c1Example ∧
    filename_friendly_hash (fun s => s) c1Example =
      filename_friendly_hash (fun s => s) c1Example' := by
  have hinner : KeyReorder (J.obj [("four", .str "five"), ("six", .str "seven")])
      (J.obj [("six", .str "seven"), ("four", .str "five")]) :=
    KeyReorder.obj
      (KeyReorderEntries.cons (KeyReorder.str _)
        (KeyReorderEntries.cons (KeyReorder.str _) KeyReorderEntries.nil))
      (List.Perm.swap _ _ _)
  have hr : KeyReorder c1Example c1Example' :=
    KeyReorder.obj
      (KeyReorderEntries.cons (KeyReorder.str _)
        (KeyReorderEntries.cons hinner KeyReorderEntries.nil))
      (List.Perm.swap _ _ _)
  have hn : NodupKeysJ c1Example := by
    refine NodupKeysJ.obj (by decide) ?_
    intro p hp
    simp only [c1Example, List.mem_cons, List.not_mem_nil, or_false] at hp
    rcases hp with h | h
    · subst h; exact NodupKeysJ.str _
    · subst h
      refine NodupKeysJ.obj (by decide) ?_
      intro q hq
      simp only [List.mem_cons, List.not_mem_nil, or_false] at hq
      rcases hq with h | h
      · subst h; exact NodupKeysJ.str _
      · subst h; exact NodupKeysJ.str _
  exact ⟨hr, hn, C1_fingerprint_key_order_invariant (fun s => s) hr hn⟩

theorem cartProd_length (ls : List (List J)) :
    (cartProd ls).length = (ls.map List.length).prod := by
  induction ls with
  | nil => rfl
  | cons vs rest ih =>
    simp only [cartProd, List.length_flatten, List.map_map, List.map_cons,
      List.prod_cons]
    have : ∀ n : ℕ, ((List.map (fun _ => n) vs)).sum = vs.length * n := by
      intro n
      induction vs with
      | nil => simp
      | cons v t iht => simp [iht, Nat.succ_mul, Nat.add_comm]
    calc (vs.map (fun v => ((cartProd rest).map (fun tail => v :: tail)).length)).sum
        = (vs.map (fun _ => (cartProd rest).length)).sum := by
          simp [List.length_map]
      _ = vs.length * (cartProd rest).length := this _
      _ = vs.length * (rest.map List.length).prod := by rw [ih]

theorem mem_cartProd {ls : List (List J)} {combo : List J} :
    combo ∈ cartProd ls ↔ List.Forall₂ (fun v vs => v ∈ vs) combo ls := by
  induction ls generalizing combo with
  | nil =>
    simp [cartProd, List.forall₂_nil_right_iff]
  | cons vs rest ih =>
    simp only [cartProd, List.mem_flatten, List.mem_map, List.forall₂_cons_right_iff]
    constructor
    · rintro ⟨l, ⟨v, hv, rfl⟩, hc⟩
      rcases List.mem_map.mp hc with ⟨tail, htail, rfl⟩
      exact ⟨v, tail, hv, ih.mp htail, rfl⟩
    · rintro ⟨v, tail, hv, htail, rfl⟩
      exact ⟨(cartProd rest).map (fun t => v :: t), ⟨v, hv, rfl⟩,
        List.mem_map.mpr ⟨tail, ih.mpr htail, rfl⟩⟩

theorem nodup_cartProd {ls : List (List J)} (h : ∀ vs ∈ ls, vs.Nodup) :
    (cartProd ls).Nodup := by
  induction ls with
  | nil => simp [cartProd]
  | cons vs rest ih =>
    have hvs : vs.Nodup := h vs (by simp)
    have hrest : (cartProd rest).Nodup := ih (fun l hl => h l (by simp [hl]))
    simp only [cartProd]
    rw [List.nodup_flatten]
    constructor
    · intro l hl
      rcases List.mem_map.mp hl with ⟨v, _, rfl⟩
      exact hrest.map (fun a b hab => by injection hab)
    · rw [List.pairwise_map]
      refine hvs.imp ?_
      intro a b hab
      intro x hxa hxb
      rcases List.mem_map.mp hxa with ⟨t, _, rfl⟩
      rcases List.mem_map.mp hxb with ⟨t', _, heq⟩
      injection heq with h1 _
      exact hab h1.symm

theorem parameterGrid_length (pc : List (String × List J)) :
    (parameterGrid pc).length = (pc.map (fun kv => kv.2.length)).prod := by
  have hperm : (List.insertionSort kvle pc).Perm pc := List.perm_insertionSort kvle pc
  have hprod : ((List.insertionSort kvle pc).map (fun kv => kv.2.length)).prod =
      (pc.map (fun kv => kv.2.length)).prod :=
    (hperm.map (fun kv => kv.2.length)).prod_eq
  by_cases hemp : (List.insertionSort kvle pc).isEmpty
  · have : List.insertionSort kvle pc = [] := List.isEmpty_iff.mp hemp
    simp [parameterGrid, hemp, ← hprod, this]
  · have hfalse : (List.insertionSort kvle pc).isEmpty = false := by
      simpa using hemp
    simp only [parameterGrid, hfalse, Bool.false_eq_true, if_false, List.length_map,
      cartProd_length, List.map_map]
    rw [← hprod]
    rfl

/-- C7: grid expansion yields exactly one classpath/parameter pair per
element of the cartesian product of each identifier's candidate-value lists:
the total count is the sum over identifiers of the product of list lengths,
each combination occurs exactly once (no duplicates when the candidate lists
are duplicate-free, and every pointwise choice occurs), and an empty inner
mapping yields exactly one pair with an empty parameter set. -/
theorem C7_grid_expansion_complete
    (model_config : List (String × List (String × List J)))
    (hnd : ∀ idp ∈ model_config, ∀ kv ∈ idp.2, kv.2.Nodup) :
    (generate_model_configs model_config).length =
      (model_config.map (fun idp => (idp.2.map (fun kv => kv.2.length)).prod)).sum ∧
    parameterGrid [] = [[]] ∧
    (∀ idp ∈ model_config, (parameterGrid idp.2).Nodup) ∧
    (∀ idp ∈ model_config, ∀ ps,
      ps ∈ parameterGrid idp.2 ↔
        (idp.2 = [] ∧ ps = []) ∨
        (idp.2 ≠ [] ∧ ∃ combo,
          List.Forall₂ (fun v vs => v ∈ vs) combo
            ((List.insertionSort kvle idp.2).map Prod.snd) ∧
          ps = ((List.insertionSort kvle idp.2).map Prod.fst).zip combo)) := by
  refine ⟨?_, rfl, ?_, ?_⟩
  · simp only [generate_model_configs, List.length_flatten, List.map_map]
    congr 1
    refine List.map_congr_left ?_
    intro idp _
    simp [parameterGrid_length]
  · intro idp hidp
    have hvals : ∀ vs ∈ (List.insertionSort kvle idp.2).map Prod.snd, vs.Nodup := by
      intro vs hvs
      rcases List.mem_map.mp hvs with ⟨kv, hkv, rfl⟩
      exact hnd idp hidp kv ((List.perm_insertionSort kvle idp.2).mem_iff.mp hkv)
    by_cases hemp : (List.insertionSort kvle idp.2).isEmpty
    · simp [parameterGrid, hemp]
    · have hfalse : (List.insertionSort kvle idp.2).isEmpty = false := by
        simpa using hemp
      simp only [parameterGrid, hfalse, Bool.false_eq_true, if_false]
      refine List.Nodup.map_on ?_ (nodup_cartProd hvals)
      intro a ha b hb hab
      have hlen : ∀ c ∈ cartProd ((List.insertionSort kvle idp.2).map Prod.snd),
          ((List.insertionSort kvle idp.2).map Prod.fst).length ≤ c.length := by
        intro c hc
        have h1 := (mem_cartProd.mp hc).length_eq
        simp only [List.length_map] at h1 ⊢
        omega
      have ha' := hlen a ha
      have hb' := hlen b hb
      calc a = (((List.insertionSort kvle idp.2).map Prod.fst).zip a).map Prod.snd := by
            rw [List.map_snd_zip]
            · have := (mem_cartProd.mp ha).length_eq
              simp only [List.length_map] at this ⊢
              omega
        _ = (((List.insertionSort kvle idp.2).map Prod.fst).zip b).map Prod.snd := by
            rw [hab]
        _ = b := by
            rw [List.map_snd_zip]
            have := (mem_cartProd.mp hb).length_eq
            simp only [List.length_map] at this ⊢
            omega
  · intro idp hidp ps
    by_cases hemp : (List.insertionSort kvle idp.2).isEmpty
    · have hsortnil : List.insertionSort kvle idp.2 = [] := List.isEmpty_iff.mp hemp
      have hnil : idp.2 = [] := by
        have := List.perm_insertionSort kvle idp.2
        rw [hsortnil] at this
        exact (List.Perm.nil_eq this).symm
      simp [parameterGrid, hemp, hnil]
    · have hne : idp.2 ≠ [] := by
        intro h
        rw [h] at hemp
        simp [List.insertionSort] at hemp
      have hfalse : (List.insertionSort kvle idp.2).isEmpty = false := by
        simpa using hemp
      simp only [parameterGrid, hfalse, Bool.false_eq_true, if_false, List.mem_map]
      constructor
      · rintro ⟨combo, hc, rfl⟩
        exact Or.inr ⟨hne, combo, mem_cartProd.mp hc, rfl⟩
      · rintro (⟨h, _⟩ | ⟨_, combo, hc, rfl⟩)
        · exact absurd h hne
        · exact ⟨combo, mem_cartProd.mpr hc, rfl⟩

/-- Witness for C7 at the concrete grid. -/
theorem C7_grid_expansion_complete_witness :
    (∀ idp ∈ c7Example, ∀ kv ∈ idp.2, kv.2.Nodup) ∧
    (generate_model_configs c7Example).length =
      (c7Example.map (fun idp => (idp.2.map (fun kv => kv.2.length)).prod)).sum := by
  have hnd : ∀ idp ∈ c7Example, ∀ kv ∈ idp.2, kv.2.Nodup := by
    intro idp hidp kv hkv
    simp only [c7Example, List.mem_cons, List.not_mem_nil, or_false] at hidp
    rcases hidp with h | h
    · subst h
      simp only [List.mem_cons, List.not_mem_nil, or_false] at hkv
      subst hkv
      simp
    · subst h
      simp at hkv
  exact ⟨hnd, (C7_grid_expansion_complete c7Example hnd).1⟩

/-- C3: `exists()` is claimed to return a boolean that is true iff an
artifact was written, for both backends. The filesystem backend satisfies
this, but `S3Store.exists` evaluates `key_exists(self.path)` without
returning it, so the call returns `None` for every state and key — even
immediately after a successful write — never a boolean. -/
theorem C3_s3_exists_returns_none :
    (∀ (s3 : S3State) (key : String), s3Backend.existsRet s3 key = none) ∧
    (s3Backend.write true ([] : S3State) "proj/trained_models/0x0" mExample =
      .ok [("proj/trained_models/0x0", mExample)]) ∧
    s3Backend.existsRet [("proj/trained_models/0x0", mExample)]
      "proj/trained_models/0x0" = none ∧
    fsBackend.existsRet [("proj/trained_models/0x0", mExample)]
      "proj/trained_models/0x0" = some true ∧
    fsBackend.existsRet ([] : FSState) "proj/trained_models/0x0" = some false :=
  ⟨fun _ _ => rfl, rfl, rfl, rfl, rfl⟩

/-- C2: re-invoking `train_models` with `replace=False` after a completed
run is claimed to train nothing and return an empty list. With the S3
backend this fails: `S3Store.exists()` returns `None` (its return statement
is missing), so every grid point looks uncached; the second run re-fits the
point, uploads the artifact again (the store then holds two objects), and
the duplicate `models.model_hash` violates the unique constraint at commit. -/
theorem C2_second_s3_run_retrains :
    run1S3.1 = .ok [1] ∧
    run2S3.1 = .error .integrityErr ∧
    run2S3.2.1.store.length = 2 ∧
    run2S3.2.2 = [.fitted, .written "proj/trained_models/0x0"] :=
  ⟨rfl, rfl, rfl, rfl⟩

/-- C9: a trained model exposing neither a `feature_importances_` attribute
nor a `coef_` attribute makes `get_feature_importances` return `None`, and
`_write_model_to_db` then raises TypeError from `enumerate(None)` before
reaching `session.commit()`, so neither a model row nor any
feature-importance row is recorded for that grid point. -/
theorem C9_no_importances_raises_before_commit (m : TrainedModel)
    (h1 : m.featureImportances = none) (h2 : m.coef = none) :
    get_feature_importances m = none ∧
    ∀ (db : Db) (class_path : String) (parameters : Params)
      (feature_names : List String) (mh : String),
      _write_model_to_db db class_path parameters feature_names mh m =
        .error .typeErr := by
  have hg : get_feature_importances m = none := by
    unfold get_feature_importances
    rw [h1, h2]
  refine ⟨hg, ?_⟩
  intro db class_path parameters feature_names mh
  unfold _write_model_to_db
  rw [hg]

/-- Witness for C9 at a bare model object. -/
theorem C9_no_importances_raises_before_commit_witness :
    (⟨none, none⟩ : TrainedModel).featureImportances = none ∧
    (⟨none, none⟩ : TrainedModel).coef = none ∧
    get_feature_importances ⟨none, none⟩ = none ∧
    _write_model_to_db ⟨[], []⟩ "sklearn.svm.SVC" [] ["f1"] "0x0" ⟨none, none⟩ =
      .error .typeErr := by
  refine ⟨rfl, rfl, ?_, ?_⟩
  · exact (C9_no_importances_raises_before_commit ⟨none, none⟩ rfl rfl).1
  · exact (C9_no_importances_raises_before_commit ⟨none, none⟩ rfl rfl).2
      ⟨[], []⟩ "sklearn.svm.SVC" [] ["f1"] "0x0"

theorem train_preserves_store_db {σ : Type} (fit : FitOracle) (class_path : String)
    (parameters : Params) (st : TrainerState σ) :
    (_train fit class_path parameters st).2.db = st.db ∧
    (_train fit class_path parameters st).2.store = st.store := by
  refine ⟨?_, ?_⟩
  all_goals
    unfold _train
    split
  any_goals rfl
  all_goals split <;> rfl

theorem tasm_error_state {σ : Type} (B : StoreBackend σ) (writeOk : Bool)
    (fit : FitOracle) (class_path : String) (parameters : Params)
    (mh path : String) (st : TrainerState σ) {e : TrainErr}
    {st' : TrainerState σ} {tr : List TrainEvent}
    (h : _train_and_store_model B writeOk fit class_path parameters mh path st =
      (.error e, st', tr)) :
    st'.db = st.db ∧ ∀ h2 : String, TrainEvent.recorded h2 ∉ tr := by
  unfold _train_and_store_model at h
  rcases h1 : _train fit class_path parameters st with ⟨r1, st1⟩
  have hdb : st1.db = st.db := by
    have := (train_preserves_store_db fit class_path parameters st).1
    rw [h1] at this
    exact this
  rw [h1] at h
  rcases r1 with e1 | ⟨m, feature_names⟩
  · dsimp only at h
    injection h with ha hb
    injection hb with hb1 hb2
    subst hb1 hb2
    exact ⟨hdb, by simp⟩
  · dsimp only at h
    rcases h2 : B.write writeOk st1.store path m with e2 | store'
    · rw [h2] at h
      dsimp only at h
      injection h with ha hb
      injection hb with hb1 hb2
      subst hb1 hb2
      refine ⟨hdb, ?_⟩
      intro hsh
      simp
    · rw [h2] at h
      dsimp only at h
      rcases h3 : _write_model_to_db st1.db class_path parameters feature_names mh m
        with e3 | ⟨mid, db'⟩
      · rw [h3] at h
        dsimp only at h
        injection h with ha hb
        injection hb with hb1 hb2
        subst hb1 hb2
        refine ⟨hdb, ?_⟩
        intro hsh
        simp
      · rw [h3] at h
        dsimp only at h
        injection h with ha
        exact absurd ha (by simp)

/-- C5: within one grid point the artifact write completes before the
record store is updated: every successful grid point's effect trace is
`fitted`, then `written`, then `recorded`, with the write at a strictly
earlier position; and on any failure — in particular a store write failure
after a successful fit — the record store is left unchanged, no `recorded`
effect occurs, and no model id is produced for that grid point. -/
theorem C5_write_happens_before_record {σ : Type} (B : StoreBackend σ)
    (writeOk : Bool) (fit : FitOracle) (class_path : String) (parameters : Params)
    (mh path : String) (st : TrainerState σ) :
    (∀ mid st' tr,
      _train_and_store_model B writeOk fit class_path parameters mh path st =
        (.ok mid, st', tr) →
      tr = [.fitted, .written path, .recorded mh] ∧
      ∃ i j : Nat, i < j ∧ tr[i]? = some (TrainEvent.written path) ∧
        tr[j]? = some (TrainEvent.recorded mh)) ∧
    (∀ e st' tr,
      _train_and_store_model B writeOk fit class_path parameters mh path st =
        (.error e, st', tr) →
      st'.db = st.db ∧ ∀ h2 : String, TrainEvent.recorded h2 ∉ tr) := by
  constructor
  · intro mid st' tr h
    unfold _train_and_store_model at h
    rcases h1 : _train fit class_path parameters st with ⟨r1, st1⟩
    rw [h1] at h
    rcases r1 with e1 | ⟨m, feature_names⟩
    · dsimp only at h
      exact absurd (congrArg Prod.fst h) (by simp)
    · dsimp only at h
      rcases h2 : B.write writeOk st1.store path m with e2 | store'
      · rw [h2] at h
        dsimp only at h
        exact absurd (congrArg Prod.fst h) (by simp)
      · rw [h2] at h
        dsimp only at h
        rcases h3 : _write_model_to_db st1.db class_path parameters feature_names mh m
          with e3 | ⟨mid', db'⟩
        · rw [h3] at h
          dsimp only at h
          exact absurd (congrArg Prod.fst h) (by simp)
        · rw [h3] at h
          dsimp only at h
          injection h with ha hb
          injection hb with hb1 hb2
          subst hb2
          exact ⟨rfl, 1, 2, by decide, rfl, rfl⟩
  · intro e st' tr h
    exact tasm_error_state B writeOk fit class_path parameters mh path st h

/-- Witness for C5 at a concrete successful grid point. -/
theorem C5_write_happens_before_record_witness :
    tasmExample.1 = .ok 1 ∧
    tasmExample.2.2 =
      [.fitted, .written "proj/trained_models/0x0", .recorded "0x0"] ∧
    ∃ i j : Nat, i < j ∧
      tasmExample.2.2[i]? = some (TrainEvent.written "proj/trained_models/0x0") ∧
      tasmExample.2.2[j]? = some (TrainEvent.recorded "0x0") := by
  refine ⟨rfl, rfl, ?_⟩
  have h := (C5_write_happens_before_record fsBackend true fitOk
    "sklearn.tree.DecisionTreeClassifier" [] "0x0" "proj/trained_models/0x0"
    st0FS).1 1 tasmExample.2.1 tasmExample.2.2 rfl
  exact h.2

/-- C4 counterexample: a fit failure for the first grid point is not caught
by `train_models` — the run returns the raw fit exception instead of a
result list, nothing is written or recorded, and the second grid point is
never processed (no artifact, row or effect for it exists afterwards). -/
theorem C4_fit_failure_aborts_run :
    runFail.1 = .error (.fitExc "boom") ∧
    runFail.2.1.store = [] ∧
    runFail.2.1.db.models = [] ∧
    runFail.2.2 = [] :=
  ⟨rfl, rfl, rfl, rfl⟩

/-- C4 amended: when a grid point's fit call raises, `train_models` has no
per-point handler: the loop returns the external fit exception unchanged —
not tagged with the point's identifier or parameters — and the outcome is
the same whatever grid points remain, which are therefore never processed. -/
theorem C4_amended_fit_failure_propagates {σ : Type} (B : StoreBackend σ)
    (writeOk : Bool) (fit : FitOracle) (pyhash : String → Int)
    (project_path : String) (class_path : String) (parameters : Params)
    (st st1 : TrainerState σ) (msg : String)
    (hskip : truthy (B.existsRet st.store (B.getStorePath project_path
      (model_hash pyhash project_path st.ms.metadata class_path parameters))) =
        false)
    (hfit : _train fit class_path parameters st = (.error (.fitExc msg), st1)) :
    ∀ rest : List (String × Params),
      trainLoop B writeOk fit pyhash project_path false
        ((class_path, parameters) :: rest) st =
      (.error (.fitExc msg), st1, []) := by
  intro rest
  have htasm : _train_and_store_model B writeOk fit class_path parameters
      (model_hash pyhash project_path st.ms.metadata class_path parameters)
      (B.getStorePath project_path
        (model_hash pyhash project_path st.ms.metadata class_path parameters)) st =
      (.error (.fitExc msg), st1, []) := by
    unfold _train_and_store_model
    rw [hfit]
  unfold trainLoop
  simp only [hskip, Bool.not_false, Bool.false_or, if_true, htasm]

/-- Witness for the amended C4 at the concrete failing grid. -/
theorem C4_amended_fit_failure_propagates_witness :
    truthy (fsBackend.existsRet st0FS.store (fsBackend.getStorePath "proj"
      (model_hash pyhashZero "proj" st0FS.ms.metadata "pkg.A" []))) = false ∧
    _train fitFail "pkg.A" [] st0FS =
      (.error (.fitExc "boom"),
        ⟨st0FS.store, st0FS.db,
          ⟨[("f1", [0, 1])], msExample.metadata, some [0, 1]⟩⟩) ∧
    trainLoop fsBackend true fitFail pyhashZero "proj" false
      [("pkg.A", []), ("pkg.B", [])] st0FS =
      (.error (.fitExc "boom"),
        ⟨st0FS.store, st0FS.db,
          ⟨[("f1", [0, 1])], msExample.metadata, some [0, 1]⟩⟩, []) := by
  refine ⟨rfl, rfl, ?_⟩
  exact C4_amended_fit_failure_propagates fsBackend true fitFail pyhashZero
    "proj" "pkg.A" [] st0FS
    ⟨st0FS.store, st0FS.db, ⟨[("f1", [0, 1])], msExample.metadata, some [0, 1]⟩⟩
    "boom" rfl rfl [("pkg.B", [])]

/-- C6 counterexample: a cache-hit grid point is skipped and contributes
nothing to the result — the run over a fully cached grid returns the empty
list, not the cached identities — and a freshly trained grid point
contributes its record-store autoincrement model id (the integer 1), not the
identity string "0x0" used as its storage key. -/
theorem C6_result_is_db_ids_not_identities :
    runCached.1 = .ok [] ∧
    runCached.2.2 = [] ∧
    runFresh.1 = .ok [1] ∧
    runFresh.2.1.db.models.map (fun r => r.model_id) = [1] ∧
    runFresh.2.1.db.models.map (fun r => r.model_hash) = ["0x0"] :=
  ⟨rfl, rfl, rfl, rfl, rfl⟩

theorem write_model_to_db_ok {db : Db} {class_path : String} {parameters : Params}
    {feature_names : List String} {mh : String} {m : TrainedModel} {mid : Nat}
    {db' : Db}
    (h : _write_model_to_db db class_path parameters feature_names mh m =
      .ok (mid, db')) :
    mid = db.models.length + 1 ∧
    db'.models = db.models ++ [⟨mid, mh, class_path, parameters⟩] := by
  unfold _write_model_to_db at h
  dsimp only at h
  split at h
  · exact absurd h (by simp)
  · split at h
    · exact absurd h (by simp)
    · split at h
      · exact absurd h (by simp)
      · injection h with h1
        injection h1 with hmid hdb
        subst hmid
        subst hdb
        exact ⟨rfl, rfl⟩

theorem tasm_ok_db {σ : Type} (B : StoreBackend σ) (writeOk : Bool)
    (fit : FitOracle) (class_path : String) (parameters : Params)
    (mh path : String) (st : TrainerState σ) {mid : Nat}
    {st' : TrainerState σ} {tr : List TrainEvent}
    (h : _train_and_store_model B writeOk fit class_path parameters mh path st =
      (.ok mid, st', tr)) :
    ∃ row : ModelRow, st'.db.models = st.db.models ++ [row] ∧
      row.model_id = mid ∧ mid = st.db.models.length + 1 ∧ row.model_hash = mh := by
  unfold _train_and_store_model at h
  rcases h1 : _train fit class_path parameters st with ⟨r1, st1⟩
  have hdb : st1.db = st.db := by
    have := (train_preserves_store_db fit class_path parameters st).1
    rw [h1] at this
    exact this
  rw [h1] at h
  rcases r1 with e1 | ⟨m, feature_names⟩
  · dsimp only at h
    exact absurd (congrArg Prod.fst h) (by simp)
  · dsimp only at h
    rcases h2 : B.write writeOk st1.store path m with e2 | store'
    · rw [h2] at h
      dsimp only at h
      exact absurd (congrArg Prod.fst h) (by simp)
    · rw [h2] at h
      dsimp only at h
      rcases h3 : _write_model_to_db st1.db class_path parameters feature_names mh m
        with e3 | ⟨mid', db'⟩
      · rw [h3] at h
        dsimp only at h
        exact absurd (congrArg Prod.fst h) (by simp)
      · rw [h3] at h
        dsimp only at h
        obtain ⟨hmid, hmodels⟩ := write_model_to_db_ok h3
        injection h with ha hb
        injection ha with ha1
        injection hb with hb1 hb2
        refine ⟨⟨mid', mh, class_path, parameters⟩, ?_, ha1, ?_, rfl⟩
        · rw [← hb1]
          dsimp only
          rw [hmodels, hdb]
        · rw [← ha1, hmid, hdb]

/-- C6 amended: on a successful run, `train_models` returns the list of
record-store autoincrement model ids (integers, not identity strings) of
exactly the grid points newly trained in this run, in processing order: the
model table grows by rows whose ids are precisely the returned list, and
grid points skipped as cache hits contribute nothing. -/
theorem C6_amended_result_is_new_db_ids {σ : Type} (B : StoreBackend σ)
    (writeOk : Bool) (fit : FitOracle) (pyhash : String → Int)
    (project_path : String) (replace : Bool) :
    ∀ (gps : List (String × Params)) (st : TrainerState σ) (ids : List Nat)
      (st' : TrainerState σ) (tr : List TrainEvent),
      trainLoop B writeOk fit pyhash project_path replace gps st =
        (.ok ids, st', tr) →
      ∃ newRows : List ModelRow,
        st'.db.models = st.db.models ++ newRows ∧
        ids = newRows.map (fun r => r.model_id) := by
  intro gps
  induction gps with
  | nil =>
    intro st ids st' tr h
    unfold trainLoop at h
    injection h with h1 h2
    injection h1 with hids
    injection h2 with h2a h2b
    subst hids
    subst h2a
    exact ⟨[], by simp, rfl⟩
  | cons gp rest ih =>
    intro st ids st' tr h
    unfold trainLoop at h
    dsimp only at h
    split at h
    · split at h
      · exact absurd (congrArg (fun x => x.1) h) (by simp)
      · rename_i mid st1 tr1 htasm
        split at h
        · exact absurd (congrArg (fun x => x.1) h) (by simp)
        · rename_i mids st2 tr2 hrec
          injection h with h1 h2
          injection h1 with hids
          injection h2 with h2a h2b
          obtain ⟨row, hrow1, hrow2, _, _⟩ := tasm_ok_db B writeOk fit gp.1 gp.2
            _ _ st htasm
          obtain ⟨newRows, hn1, hn2⟩ := ih st1 mids st2 tr2 hrec
          refine ⟨row :: newRows, ?_, ?_⟩
          · rw [← h2a, hn1, hrow1]
            simp
          · rw [← hids]
            simp [List.map_cons, hrow2, ← hn2]
    · exact ih st ids st' tr h

/-- Witness for the amended C6 at the fresh one-point run. -/
theorem C6_amended_result_is_new_db_ids_witness :
    trainLoop fsBackend true fitOk pyhashZero "proj" false
      (generate_model_configs configOne) st0FS =
      (.ok [1], runFresh.2.1, runFresh.2.2) ∧
    ∃ newRows : List ModelRow,
      runFresh.2.1.db.models = st0FS.db.models ++ newRows ∧
      [1] = newRows.map (fun r => r.model_id) := by
  refine ⟨rfl, ?_⟩
  exact C6_amended_result_is_new_db_ids fsBackend true fitOk pyhashZero "proj"
    false (generate_model_configs configOne) st0FS [1] runFresh.2.1 runFresh.2.2 rfl

theorem popCol_spec {name : String} {l : List (String × List ℚ)}
    {col : List ℚ} {rest : List (String × List ℚ)}
    (h : popCol name l = some (col, rest)) :
    ∃ l1 l2, l = l1 ++ (name, col) :: l2 ∧ rest = l1 ++ l2 ∧
      ∀ kv ∈ l1, kv.1 ≠ name := by
  induction l generalizing col rest with
  | nil => simp [popCol] at h
  | cons kv tl ih =>
    rw [popCol] at h
    by_cases hk : kv.1 == name
    · rw [if_pos hk] at h
      injection h with h1
      injection h1 with hcol hrest
      have hkv : kv = (name, col) := by
        have : kv.1 = name := by simpa using hk
        rw [← hcol]
        exact Prod.ext this rfl
      refine ⟨[], tl, ?_, ?_, by simp⟩
      · rw [hkv]
        simp
      · rw [← hrest]
        simp
    · rw [if_neg hk] at h
      rcases hrec : popCol name tl with _ | r
      · rw [hrec] at h
        simp at h
      · rw [hrec] at h
        injection h with h1
        injection h1 with hcol hrest
        obtain ⟨l1, l2, htl, hr1, hr2⟩ := @ih col r.2 (by rw [hrec, ← hcol])
        refine ⟨kv :: l1, l2, ?_, ?_, ?_⟩
        · rw [htl]
          rfl
        · rw [← hrest, hr1]
          rfl
        · intro kv2 hkv2
          rcases List.mem_cons.mp hkv2 with h | h
          · subst h
            simpa using hk
          · exact hr2 kv2 h

/-- C10: the first `labels()` call removes the column named by
`metadata['label_name']` from the stored matrix in place (exactly that
column: it was present, it is gone afterwards, every other column survives
in order) and caches it; every later call returns the cache and leaves the
store unchanged; consequently the matrix and column names `_train` hands
to the fit call never include the label column. -/
theorem C10_labels_pop_cache_and_fit_input (s : MatrixStoreState) (name : String)
    (col : List ℚ) (rest : List (String × List ℚ))
    (hname : metaLabelName s.metadata = some name)
    (hnd : (s.matrix.map Prod.fst).Nodup)
    (hc : s.labelsCache = none)
    (hp : popCol name s.matrix = some (col, rest)) :
    matrixStoreLabels s =
      .ok (col, { s with matrix := rest, labelsCache := some col }) ∧
    (name, col) ∈ s.matrix ∧
    name ∉ rest.map Prod.fst ∧
    (∀ kv ∈ s.matrix, kv.1 ≠ name → kv ∈ rest) ∧
    matrixStoreLabels { s with matrix := rest, labelsCache := some col } =
      .ok (col, { s with matrix := rest, labelsCache := some col }) ∧
    (∀ (σ : Type) (fit : FitOracle) (class_path : String) (parameters : Params)
       (st : TrainerState σ) (m : TrainedModel) (fn : List String)
       (st' : TrainerState σ), st.ms = s →
       _train fit class_path parameters st = (.ok (m, fn), st') →
       name ∉ fn ∧ fn = rest.map Prod.fst) := by
  obtain ⟨l1, l2, hsplit, hrest, hl1⟩ := popCol_spec hp
  have hfirst : matrixStoreLabels s =
      .ok (col, { s with matrix := rest, labelsCache := some col }) := by
    unfold matrixStoreLabels
    rw [hc, hname]
    dsimp only
    rw [hp]
  have hmem : (name, col) ∈ s.matrix := by
    rw [hsplit]
    simp
  have hnotin : name ∉ rest.map Prod.fst := by
    rw [hsplit] at hnd
    rw [hrest]
    simp only [List.map_append, List.map_cons] at hnd
    have := List.Nodup.not_mem ((List.nodup_append.mp hnd).2.1)
    intro hcon
    simp only [List.map_append, List.mem_append, List.mem_map] at hcon
    rcases hcon with h | h
    · obtain ⟨kv, hkv, hkv1⟩ := h
      exact hl1 kv hkv hkv1
    · have hdisj := (List.nodup_append.mp hnd).2.2
      obtain ⟨kv, hkv, hkv1⟩ := h
      have hnd2 : (name :: l2.map Prod.fst).Nodup := (List.nodup_append.mp hnd).2.1
      have : name ∉ l2.map Prod.fst := by
        have := List.nodup_cons.mp hnd2
        exact this.1
      exact this (List.mem_map.mpr ⟨kv, hkv, hkv1⟩)
  have hkeep : ∀ kv ∈ s.matrix, kv.1 ≠ name → kv ∈ rest := by
    intro kv hkv hne
    rw [hsplit] at hkv
    rw [hrest]
    rcases List.mem_append.mp hkv with h | h
    · exact List.mem_append.mpr (Or.inl h)
    · rcases List.mem_cons.mp h with h | h
      · exact absurd (by rw [h]) hne
      · exact List.mem_append.mpr (Or.inr h)
  have hsecond : matrixStoreLabels { s with matrix := rest, labelsCache := some col } =
      .ok (col, { s with matrix := rest, labelsCache := some col }) := by
    unfold matrixStoreLabels
    rfl
  refine ⟨hfirst, hmem, hnotin, hkeep, hsecond, ?_⟩
  intro σ fit class_path parameters st m fn st' hms htr
  unfold _train at htr
  rw [hms, hfirst] at htr
  dsimp only at htr
  rcases hf : fit class_path parameters rest col with msg | m'
  · rw [hf] at htr
    dsimp only at htr
    exact absurd (congrArg Prod.fst htr) (by simp)
  · rw [hf] at htr
    dsimp only at htr
    injection htr with ha hb
    injection ha with ha1
    injection ha1 with ha2 ha3
    exact ⟨by rw [← ha3]; exact hnotin, by rw [← ha3]⟩

/-- Witness for C10 at the example matrix store. -/
theorem C10_labels_pop_cache_and_fit_input_witness :
    metaLabelName msExample.metadata = some "label" ∧
    (msExample.matrix.map Prod.fst).Nodup ∧
    msExample.labelsCache = none ∧
    popCol "label" msExample.matrix = some ([0, 1], [("f1", [0, 1])]) ∧
    matrixStoreLabels msExample =
      .ok ([0, 1],
        { msExample with matrix := [("f1", [0, 1])], labelsCache := some [0, 1] }) ∧
    "label" ∉ ([("f1", [(0 : ℚ), 1])].map Prod.fst) := by
  have h := C10_labels_pop_cache_and_fit_input msExample "label" [0, 1]
    [("f1", [0, 1])] rfl (by decide) rfl rfl
  exact ⟨rfl, by decide, rfl, rfl, h.1, h.2.2.1⟩

theorem igLoop_add (a b : Nat) (p : Nat × Nat × Nat) :
    igLoop (a + b) p = igLoop a (igLoop b p) := by
  induction b generalizing p with
  | zero => rfl
  | succ n ih => exact ih (igStep p)

theorem ibaLoop1_add (k a b : Nat) (p : Nat × Nat) :
    ibaLoop1 k (a + b) p = ibaLoop1 k a (ibaLoop1 k b p) := by
  induction b generalizing p with
  | zero => rfl
  | succ n ih => exact ih (ibaStep1 k p)

theorem ibaLoop2_add (a b : Nat) (p : Nat × Nat) :
    ibaLoop2 (a + b) p = ibaLoop2 a (ibaLoop2 b p) := by
  induction b generalizing p with
  | zero => rfl
  | succ n ih => exact ih (ibaStep2 p)

theorem twistLoop_add (a b : Nat) (p : Nat × Nat) :
    twistLoop (a + b) p = twistLoop a (twistLoop b p) := by
  induction b generalizing p with
  | zero => rfl
  | succ n ih => exact ih (twistStep p)

theorem igMid_eq :
    igLoop 312 (19650218 % m32, 19650218 % m32, 1) = (igMid, igMidPrev, 313) := by
  decide

theorem mtBase_eq : initGenrand 19650218 = mtBase := by
  unfold initGenrand
  rw [show (623 : Nat) = 311 + 312 from rfl, igLoop_add, igMid_eq]
  rw [show igLoop 311 (igMid, igMidPrev, 313) = (mtBase, getW mtBase 623, 624) from by decide]

theorem mtS8U1_eq : ibaLoop1 8 208 (mtBase, 1) = (mtS8U1, 209) := by decide

theorem mtS8U2_eq : ibaLoop1 8 208 (mtS8U1, 209) = (mtS8U2, 417) := by decide

theorem mtS8L1_eq : ibaLoop1 8 208 (mtS8U2, 417) = (mtS8L1, 2) := by decide

theorem mtS8V1_eq : ibaLoop2 208 (mtS8L1, 2) = (mtS8V1, 210) := by decide

theorem mtS8V2_eq : ibaLoop2 208 (mtS8V1, 210) = (mtS8V2, 418) := by decide

theorem mtS8L2_eq : ibaLoop2 207 (mtS8V2, 418) = (mtS8L2, 2) := by decide

theorem mtS8W1_eq :
    twistLoop 312 (setW mtS8L2 0 2147483648, 0) = (mtS8W1, 312) := by decide

theorem mtS8Tw_eq : twistLoop 312 (mtS8W1, 312) = (mtS8, 624) := by decide

theorem pyRandomState8 : pyRandomState 8 = mtS8 := by
  unfold pyRandomState initByArray twist
  rw [mtBase_eq]
  rw [show ibaLoop1 8 624 (mtBase, 1) =
      ibaLoop1 8 (208 + (208 + 208)) (mtBase, 1) from rfl,
    ibaLoop1_add, ibaLoop1_add, mtS8U1_eq, mtS8U2_eq, mtS8L1_eq]
  rw [show ibaLoop2 623 (mtS8L1, 2) =
      ibaLoop2 (207 + (208 + 208)) (mtS8L1, 2) from rfl,
    ibaLoop2_add, ibaLoop2_add, mtS8V1_eq, mtS8V2_eq, mtS8L2_eq]
  rw [show twistLoop 624 (setW (mtS8L2, (2 : Nat)).1 0 2147483648, 0) =
      twistLoop (312 + 312) (setW mtS8L2 0 2147483648, 0) from rfl,
    twistLoop_add, mtS8W1_eq, mtS8Tw_eq]

theorem mtS12345U1_eq : ibaLoop1 12345 208 (mtBase, 1) = (mtS12345U1, 209) := by decide

theorem mtS12345U2_eq : ibaLoop1 12345 208 (mtS12345U1, 209) = (mtS12345U2, 417) := by decide

theorem mtS12345L1_eq : ibaLoop1 12345 208 (mtS12345U2, 417) = (mtS12345L1, 2) := by decide

theorem mtS12345V1_eq : ibaLoop2 208 (mtS12345L1, 2) = (mtS12345V1, 210) := by decide

theorem mtS12345V2_eq : ibaLoop2 208 (mtS12345V1, 210) = (mtS12345V2, 418) := by decide

theorem mtS12345L2_eq : ibaLoop2 207 (mtS12345V2, 418) = (mtS12345L2, 2) := by decide

theorem mtS12345W1_eq :
    twistLoop 312 (setW mtS12345L2 0 2147483648, 0) = (mtS12345W1, 312) := by decide

theorem mtS12345Tw_eq : twistLoop 312 (mtS12345W1, 312) = (mtS12345, 624) := by decide

theorem pyRandomState12345 : pyRandomState 12345 = mtS12345 := by
  unfold pyRandomState initByArray twist
  rw [mtBase_eq]
  rw [show ibaLoop1 12345 624 (mtBase, 1) =
      ibaLoop1 12345 (208 + (208 + 208)) (mtBase, 1) from rfl,
    ibaLoop1_add, ibaLoop1_add, mtS12345U1_eq, mtS12345U2_eq, mtS12345L1_eq]
  rw [show ibaLoop2 623 (mtS12345L1, 2) =
      ibaLoop2 (207 + (208 + 208)) (mtS12345L1, 2) from rfl,
    ibaLoop2_add, ibaLoop2_add, mtS12345V1_eq, mtS12345V2_eq, mtS12345L2_eq]
  rw [show twistLoop 624 (setW (mtS12345L2, (2 : Nat)).1 0 2147483648, 0) =
      twistLoop (312 + 312) (setW mtS12345L2 0 2147483648, 0) from rfl,
    twistLoop_add, mtS12345W1_eq, mtS12345Tw_eq]

/-- C8: for scores [0.5, 0.4, 0.6, 0.5] and labels [False, False, True,
True], the ranking with seed 8 returns ordered scores (0.6, 0.5, 0.5, 0.4)
and labels (True, True, False, False), and with seed 12345 the same scores
but labels (True, False, True, False): the order among the two tied 0.5
scores depends on the seed, not on input position. -/
theorem C8_tie_order_depends_on_seed :
    sort_predictions_and_labels [mkRat 1 2, mkRat 2 5, mkRat 3 5, mkRat 1 2]
      [false, false, true, true] 8 =
      ([mkRat 3 5, mkRat 1 2, mkRat 1 2, mkRat 2 5],
       [true, true, false, false]) ∧
    sort_predictions_and_labels [mkRat 1 2, mkRat 2 5, mkRat 3 5, mkRat 1 2]
      [false, false, true, true] 12345 =
      ([mkRat 3 5, mkRat 1 2, mkRat 1 2, mkRat 2 5],
       [true, false, true, false]) := by
  constructor
  · unfold sort_predictions_and_labels randomDoubles
    rw [pyRandomState8]
    decide
  · unfold sort_predictions_and_labels randomDoubles
    rw [pyRandomState12345]
    decide
